import Mathlib

/-!
# Moon lander: flight model and collision response

A shallow embedding of `Lander::integrate`, `ofApp::update`, `ofApp::applyCollide`
and `ofApp::checkLanding` (src/src/ofApp.cpp, src/src/ofApp.h).

Numbers: the C++ `float`s are modelled by exact rationals, so rounding is not
part of the model.  Two places need care and are modelled explicitly:

* `1 / ofGetFrameRate()` in `ofApp::update` is an unguarded float division; a
  zero divisor gives a non-finite float, which has no rational value, so the
  model makes that division fallible (`fdiv`) and `update` returns `Option`.
* `sqrt(q) <= r` in `ofApp::checkLanding` is decided on the squares (`sqrtLe`);
  `sqrtLe_iff_real_sqrt_le` relates it to the real square root.

`abs` is the floating point absolute value (ofMain.h brings `std::abs` into
scope), modelled by the absolute value of the rationals.

Library calls whose code is not part of the repository (the trigonometry behind
`header()` / `leftRightHeader()`, `ofGetFrameRate()`, `ofRandom`, the octree
queries) enter as parameters.
-/

namespace MoonLander

/-! ## Vectors (`glm::vec3` / `ofVec3f`) -/

/-- Three rational components. -/
@[ext]
structure Vec3 where
  x : ℚ
  y : ℚ
  z : ℚ
deriving DecidableEq

namespace Vec3

/-- The vector `(0, 0, 0)`. -/
def zero : Vec3 := ⟨0, 0, 0⟩

/-- Componentwise sum, `a + b`. -/
def add (a b : Vec3) : Vec3 := ⟨a.x + b.x, a.y + b.y, a.z + b.z⟩

/-- Componentwise difference, `a - b`. -/
def sub (a b : Vec3) : Vec3 := ⟨a.x - b.x, a.y - b.y, a.z - b.z⟩

/-- Scaling by a scalar, `a * k` (also written `k * a` in the source). -/
def scale (a : Vec3) (k : ℚ) : Vec3 := ⟨a.x * k, a.y * k, a.z * k⟩

instance : Add Vec3 := ⟨add⟩
instance : Sub Vec3 := ⟨sub⟩
instance : HMul Vec3 ℚ Vec3 := ⟨scale⟩
instance : HMul ℚ Vec3 Vec3 := ⟨fun k a => scale a k⟩
instance : Zero Vec3 := ⟨zero⟩

end Vec3

/-! ## The lander (`class Lander`, ofApp.h) -/

/-- The two heading functions of `Lander`: `header()` and `leftRightHeader()`
    as functions of the rotation angle.  Their bodies are `glm` trigonometry,
    which is outside the repository, so they are parameters of the model. -/
structure Heading where
  header : ℚ → Vec3
  leftRightHeader : ℚ → Vec3

/-- The members of `class Lander` that the flight model reads or writes.
    `position` and `rotationAngle` stand for `lander.getPosition()` and
    `lander.getRotationAngle(0)` of the model loader. -/
structure Lander where
  position : Vec3 := ⟨37, 30, 57⟩
  rotationAngle : ℚ := 0
  velocity : Vec3 := ⟨0, 0, 0⟩
  thrustForce : Vec3 := ⟨0, 2, 0⟩
  downwardForce : Vec3 := ⟨0, -2, 0⟩
  angularVelocity : ℚ := 0
  angularAcceleration : ℚ := 0
  acceleration : Vec3 := ⟨0, 0, 0⟩
  angularForces : ℚ := 12
  turbForce : Vec3 := ⟨0, 0, 0⟩
  damping : ℚ := 99 / 100
  gravity : ℚ := -3 / 10
  moveForward : Bool := false
  moveBackward : Bool := false
  moveLeft : Bool := false
  moveRight : Bool := false
  thrustUp : Bool := false
  moveDown : Bool := false
  rotateLeft : Bool := false
  rotateRight : Bool := false
  fuelTimeLeft : ℚ := 120

namespace Lander

/-- The time step `dt` selected at the top of `Lander::integrate`
    (ofApp.cpp 14-19): `1` when the frame rate is `0`, else `1 / framerate`. -/
def dt (framerate : ℚ) : ℚ :=
  if framerate = 0 then 1 else 1 / framerate

/-- The local `accel` of `Lander::integrate` as it stands at line 55
    (ofApp.cpp 26-54): the stored acceleration, then the thrust, descend and
    directional terms, then the turbulence accumulator. -/
def accel (H : Heading) (l : Lander) : Vec3 :=
  let accel := l.acceleration
  let accel := if l.thrustUp then accel + l.thrustForce else accel
  let accel := if l.moveDown then accel + l.downwardForce else accel
  let accel :=
    if l.moveForward then accel + H.header l.rotationAngle * (3 : ℚ)
    else if l.moveBackward then accel - H.header l.rotationAngle * (3 : ℚ)
    else if l.moveLeft then accel + H.leftRightHeader l.rotationAngle * (3 : ℚ)
    else if l.moveRight then accel - H.leftRightHeader l.rotationAngle * (3 : ℚ)
    else accel
  accel + l.turbForce

/-- The local `a` of `Lander::integrate` (ofApp.cpp 63-67): two independent
    `if`s on the rotation flags. -/
def angularAccel (l : Lander) : ℚ :=
  let a := l.angularAcceleration
  let a := if l.rotateLeft then a + l.angularForces else a
  let a := if l.rotateRight then a - l.angularForces else a
  a

/-- `Lander::integrate` (ofApp.cpp 13-75).  `framerate` is the value returned
    by `ofGetFrameRate()`.  Returns the new lander and the returned float. -/
def integrate (H : Heading) (framerate : ℚ) (l : Lander) : Lander × ℚ :=
  let dt := dt framerate
  let pos := l.position + l.velocity * dt
  let accel := accel H l
  let velocity := l.velocity + accel * dt
  let velocity := velocity * l.damping
  let rot := l.rotationAngle + l.angularVelocity * dt
  let a := angularAccel l
  let angularVelocity := l.angularVelocity + a * dt
  let angularVelocity := angularVelocity * l.damping
  ({ l with
      position := pos
      velocity := velocity
      rotationAngle := rot
      angularVelocity := angularVelocity
      turbForce := ⟨0, 0, 0⟩ },
   angularVelocity * dt)

end Lander

/-! ## The application state (`class ofApp`, ofApp.h) -/

/-- The entries of `keymap` that `ofApp::update` reads. -/
structure KeyMap where
  space : Bool := false
  dLower : Bool := false
  dUpper : Bool := false
  up : Bool := false
  down : Bool := false
  left : Bool := false
  right : Bool := false
  zLower : Bool := false
  zUpper : Bool := false
  xLower : Bool := false
  xUpper : Bool := false

/-- What one call of `ofApp::update` obtains from outside the repository:
    the frame rate (`ofGetFrameRate()`), the three `ofRandom` draws added to
    the turbulence accumulator, the result of the downward ray query
    (`some p` with `p` the mesh vertex of the hit node, `none` for no hit) and
    the result of the box query. -/
structure TickInput where
  framerate : ℚ
  randX : ℚ := 0
  randY : ℚ := 0
  randZ : ℚ := 0
  rayHit : Option Vec3 := none
  boxHit : Bool := false

/-- The three landing areas pushed by `ofApp::setup` (ofApp.h 221-223). -/
def landingAreasSetup : Fin 3 → Vec3
  | 0 => ⟨129794 / 1000000, 0, 173758 / 10000⟩
  | 1 => ⟨280003 / 100000, 0, -768603 / 10000⟩
  | 2 => ⟨-431438 / 10000, 0, 961508 / 10000⟩

/-- The members of `ofApp` used by the simulation core.  `collideSoundPlays`
    and `explodeSoundPlays` count the calls of `collideSound.play()` and
    `explodeSound.play()`, the observable effects of `applyCollide`. -/
structure App where
  obj : Lander := {}
  keymap : KeyMap := {}
  bInDrag : Bool := false
  bAltitude : Bool := false
  bCollide : Bool := false
  clipped : Bool := false
  bCrash : Bool := false
  bLanding : Bool := false
  bFuelOut : Bool := false
  bEndScreen : Bool := false
  bStartGame : Bool := false
  startThrust : ℚ := 0
  altitude : ℚ := -1
  landingAreas : Fin 3 → Vec3 := landingAreasSetup
  landingAreaRadius : ℚ := 5 / 2
  landerHalfLength : ℚ := 1
  score1 : ℚ := 100
  score2 : ℚ := 200
  score3 : ℚ := 300
  finalScore : ℚ := 0
  collideSoundPlays : Nat := 0
  explodeSoundPlays : Nat := 0

/-- The test `sqrt(q) <= r` of `checkLanding`, decided on the squares: for
    `q >= 0` it holds exactly when `r >= 0` and `q <= r * r`. -/
def sqrtLe (q r : ℚ) : Bool := decide (0 ≤ r ∧ q ≤ r * r)

/-- Float division `a / b` where the source does not guard the divisor: a zero
    divisor gives a non-finite float, which the rational model has no value
    for, hence `none`. -/
def fdiv (a b : ℚ) : Option ℚ := if b = 0 then none else some (a / b)

namespace App

/-- The score selected by the `if (i == 0) .. else if (i == 1) .. else ..`
    chains of `checkLanding`. -/
def scoreOf (s : App) (i : Fin 3) : ℚ :=
  if i = 0 then s.score1 else if i = 1 then s.score2 else s.score3

/-- The argument of `sqrt` for pad `i` in `checkLanding` (ofApp.cpp 585-587):
    the squared planar distance from the lander to the pad centre. -/
def distSq (s : App) (i : Fin 3) : ℚ :=
  let deltaX := |s.obj.position.x - (s.landingAreas i).x|
  let deltaZ := |s.obj.position.z - (s.landingAreas i).z|
  deltaX * deltaX + deltaZ * deltaZ

/-- One iteration of the loop of `ofApp::checkLanding` (ofApp.cpp 584-608). -/
def checkLandingStep (s : App) (i : Fin 3) : App :=
  if sqrtLe (s.distSq i) s.landingAreaRadius then
    let s :=
      if sqrtLe (s.distSq i) (s.landingAreaRadius - s.landerHalfLength) then
        { s with finalScore := s.scoreOf i }
      else
        { s with finalScore := s.scoreOf i / 2 }
    { s with bLanding := true }
  else s

/-- `ofApp::checkLanding` (ofApp.cpp 582-609): the loop `for i = 0, 1, 2`. -/
def checkLanding (s : App) : App :=
  [(0 : Fin 3), 1, 2].foldl checkLandingStep s

/-- `ofApp::checkCollide` (ofApp.cpp 532-540): `bCollide` receives the result
    of the box query of the octree. -/
def checkCollide (boxHit : Bool) (s : App) : App :=
  { s with bCollide := boxHit }

/-- `ofApp::rayAltitudeSensor` followed by lines 287-290 of `update`:
    `bAltitude` receives the result of the ray query and, on a hit, `altitude`
    is recomputed. -/
def altitudeStep (rayHit : Option Vec3) (s : App) : App :=
  match rayHit with
  | some p => { s with bAltitude := true, altitude := s.obj.position.y - p.y }
  | none => { s with bAltitude := false }

/-- The crash test of `applyCollide` (ofApp.cpp 553-559): when a velocity
    component exceeds `1.8` in magnitude the explosion is started and `bCrash`
    is set. -/
def crashCheck (s : App) : App :=
  if |s.obj.velocity.x| > 9 / 5 ∨ |s.obj.velocity.y| > 9 / 5 ∨ |s.obj.velocity.z| > 9 / 5 then
    { s with explodeSoundPlays := s.explodeSoundPlays + 1, bCrash := true }
  else s

/-- The bounce of `applyCollide` (ofApp.cpp 564-566). -/
def bounce (s : App) : App :=
  { s with obj := { s.obj with
      velocity := (-1 / 2 : ℚ) * s.obj.velocity
      acceleration := (-6 : ℚ) * s.obj.acceleration } }

/-- The anti clipping clamp of `applyCollide` (ofApp.cpp 568-571). -/
def antiClip (s : App) : App :=
  if s.obj.velocity.x ≤ 0 then
    { s with obj := { s.obj with velocity := { s.obj.velocity with x := 1 / 10 } } }
  else s

/-- `ofApp::applyCollide` (ofApp.cpp 545-577). -/
def applyCollide (s : App) : App :=
  let s := if !s.bCollide then { s with clipped := false } else s
  if s.bCollide then
    let s :=
      if !s.clipped then
        let s := crashCheck s
        let s := { s with collideSoundPlays := s.collideSoundPlays + 1 }
        let s := bounce s
        let s := antiClip s
        checkLanding s
      else s
    { s with clipped := true }
  else s

/-- Lines 241-256 of `ofApp::update`: the thrust key.  The only fallible step
    of `update` is here, the unguarded `1 / ofGetFrameRate()`. -/
def updateThrustKey (framerate : ℚ) (s : App) : Option App :=
  if s.keymap.space then
    if s.obj.fuelTimeLeft > 0 then do
      let startThrust ← fdiv 1 framerate
      pure { s with startThrust := startThrust, obj := { s.obj with thrustUp := true } }
    else
      pure { s with obj := { s.obj with thrustUp := false, fuelTimeLeft := 0 },
                    bFuelOut := true }
  else pure s

/-- The statement `if (key) { obj->flag = true; }` of `ofApp::update`, with
    `set` the assignment to the flag. -/
def whenKey (key : Bool) (set : Lander → Lander) (s : App) : App :=
  if key then { s with obj := set s.obj } else s

/-- Lines 257-277 of `ofApp::update`: the other keys are turned into intent
    flags.  None of these statements writes the key map, so it is read once. -/
def updateMoveKeys (s : App) : App :=
  let k := s.keymap
  let s := whenKey (k.dLower || k.dUpper) (fun l => { l with moveDown := true }) s
  let s := whenKey k.up (fun l => { l with moveForward := true }) s
  let s := whenKey k.down (fun l => { l with moveBackward := true }) s
  let s := whenKey k.left (fun l => { l with moveLeft := true }) s
  let s := whenKey k.right (fun l => { l with moveRight := true }) s
  let s := whenKey (k.zLower || k.zUpper) (fun l => { l with rotateLeft := true }) s
  let s := whenKey (k.xLower || k.xUpper) (fun l => { l with rotateRight := true }) s
  s

/-- Lines 279-283 of `ofApp::update`: the stored acceleration is reset to
    gravity and the random draws are added to the turbulence accumulator. -/
def updateForces (inp : TickInput) (s : App) : App :=
  { s with obj := { s.obj with
      acceleration := ⟨0, s.obj.gravity, 0⟩
      turbForce := ⟨s.obj.turbForce.x + inp.randX, s.obj.turbForce.y + inp.randY,
                    s.obj.turbForce.z + inp.randZ⟩ } }

/-- Lines 241-296 of `ofApp::update`: the state in which line 299 decides
    whether to call `integrate`. -/
def preIntegrate (inp : TickInput) (s : App) : Option App := do
  let s ← updateThrustKey inp.framerate s
  let s := updateMoveKeys s
  let s := updateForces inp s
  let s := altitudeStep inp.rayHit s
  let s := checkCollide inp.boxHit s
  pure (applyCollide s)

/-- Lines 298-302 of `ofApp::update`: `integrate` is skipped while the lander
    is dragged with the mouse. -/
def integrateStep (H : Heading) (framerate : ℚ) (s : App) : App :=
  if !s.bInDrag then { s with obj := (s.obj.integrate H framerate).1 } else s

/-- Lines 304-307 of `ofApp::update`: the fuel is charged while `thrustUp`. -/
def fuelStep (s : App) : App :=
  if s.obj.thrustUp then
    { s with obj := { s.obj with fuelTimeLeft := s.obj.fuelTimeLeft - s.startThrust } }
  else s

/-- Lines 317-321 of `ofApp::update`: the end-of-game test. -/
def endGameStep (s : App) : App :=
  if s.bCrash || (s.bCollide && s.bFuelOut) || s.bLanding then
    { s with bStartGame := false, bEndScreen := true }
  else s

/-- `ofApp::update` (ofApp.cpp 215-322), without the camera, light, sound and
    particle calls. -/
def update (H : Heading) (inp : TickInput) (s : App) : Option App := do
  let s ←
    if s.bStartGame then do
      let s ← preIntegrate inp s
      let s := integrateStep H inp.framerate s
      pure (fuelStep s)
    else pure s
  pure (endGameStep s)

/-- A run of `update` over the inputs of successive frames. -/
def updateRun (H : Heading) (s : App) : List TickInput → Option App
  | [] => some s
  | inp :: rest => (update H inp s).bind fun s => updateRun H s rest

/-- The collision part of one frame: `checkCollide` with the box query result
    `boxHit`, then `applyCollide`. -/
def collideStep (boxHit : Bool) (s : App) : App :=
  applyCollide (checkCollide boxHit s)

/-- The state reached after the collision steps of the frames whose box query
    results are `flags`; `other` is what the program does to the state between
    the collision step of one frame and that of the next. -/
def collideRun (other : App → App) (s : App) : List Bool → App
  | [] => s
  | f :: fs => collideRun other (other (collideStep f s)) fs

end App

/-- The directional force term selected by the four move flags, written as
    the priority list forward, backward, left, right. -/
def directionalTerm (H : Heading) (l : Lander) : Vec3 :=
  if l.moveForward then (3 : ℚ) * H.header l.rotationAngle
  else if l.moveBackward then (-3 : ℚ) * H.header l.rotationAngle
  else if l.moveLeft then (3 : ℚ) * H.leftRightHeader l.rotationAngle
  else if l.moveRight then (-3 : ℚ) * H.leftRightHeader l.rotationAngle
  else 0

/-! ## Derived quantities and sample states -/

/-- The velocity written by the bounce of `applyCollide`: half the velocity,
    reversed, with the `x` component replaced by `1 / 10` when it is not
    positive. -/
def bounceVelocity (v : Vec3) : Vec3 :=
  ⟨if (-1 / 2 : ℚ) * v.x ≤ 0 then 1 / 10 else (-1 / 2 : ℚ) * v.x,
   (-1 / 2 : ℚ) * v.y, (-1 / 2 : ℚ) * v.z⟩

/-- A lander that touches the terrain for the first time while moving at
    `(1, -2, 3)` under gravity. -/
def firstContact : App :=
  { bCollide := true, clipped := false,
    obj := { velocity := ⟨1, -2, 3⟩, acceleration := ⟨0, -3 / 10, 0⟩ } }

/-- The overlap flags `true, true, false, true` of four successive frames. -/
def overlapFlags : List Bool := [true, true, false, true]

/-- Pad `i` is within the landing radius: the first test of the loop body. -/
def App.inRange (s : App) (i : Fin 3) : Bool :=
  sqrtLe (s.distSq i) s.landingAreaRadius

/-- The score the loop body writes for pad `i`: the full score well inside the
    pad, half of it otherwise. -/
def App.padScore (s : App) (i : Fin 3) : ℚ :=
  if sqrtLe (s.distSq i) (s.landingAreaRadius - s.landerHalfLength) then s.scoreOf i
  else s.scoreOf i / 2

/-- A lander at the centre of pad 0 of the configured pads. -/
def onPadCentre : App :=
  { obj := { position := ⟨129794 / 1000000, 3, 173758 / 10000⟩ } }

/-- A lander two units away from the centre of pad 0, along `x`. -/
def offPadCentre : App :=
  { obj := { position := ⟨129794 / 1000000 + 2, 3, 173758 / 10000⟩ } }

/-- Pad centres of which the first two coincide. -/
def stackedAreas : Fin 3 → Vec3
  | 0 => ⟨0, 0, 0⟩
  | 1 => ⟨0, 0, 0⟩
  | 2 => ⟨100, 0, 100⟩

/-- Pads 0 and 1 share the centre `(0, 0)`, pad 2 is far away, and the lander
    is two units from the shared centre. -/
def stackedPads : App :=
  { landingAreas := stackedAreas, obj := { position := ⟨2, 5, 0⟩ } }

/-- The part of the state that the fuel accounting of `update` works on: the
    thrust flag, the fuel left and the last fuel charge `startThrust`. -/
def App.fuelView (s : App) : Bool × ℚ × ℚ :=
  (s.obj.thrustUp, s.obj.fuelTimeLeft, s.startThrust)

/-- Heading functions of a lander that keeps the rotation angle `0`:
    `header()` is `(0, 0, -1)` and `leftRightHeader()` is `(-1, 0, 0)`. -/
def compass : Heading := ⟨fun _ => ⟨0, 0, -1⟩, fun _ => ⟨-1, 0, 0⟩⟩

/-- A lander under gravity whose thrust flag is set although no fuel is
    left. -/
def thrustNoFuel : Lander :=
  { thrustUp := true, fuelTimeLeft := 0, acceleration := ⟨0, -3 / 10, 0⟩ }

/-- A running game with the thrust key held and the full tank of `120`. -/
def thrusting : App := { bStartGame := true, keymap := { space := true } }

/-- A running game with the thrust key held and `0.01` time units of fuel. -/
def lowFuel : App :=
  { bStartGame := true, keymap := { space := true }, obj := { fuelTimeLeft := 1 / 100 } }

/-- A lander with the four move flags set at once. -/
def allMoves : Lander :=
  { moveForward := true, moveBackward := true, moveLeft := true, moveRight := true }

/-- The lander with the four move flags cleared. -/
def Lander.clearMoves (l : Lander) : Lander :=
  { l with moveForward := false, moveBackward := false, moveLeft := false, moveRight := false }

/-- A lander with both rotation flags set. -/
def bothRotate : Lander := { rotateLeft := true, rotateRight := true }

/-- A lander at rest that starts to rotate left. -/
def spinUp : Lander := { rotateLeft := true }

/-- Lines 14-19 of `Lander::integrate` with the division made fallible, to
    record that the division is only reached with a non-zero divisor. -/
def Lander.dtChecked (framerate : ℚ) : Option ℚ :=
  if framerate = 0 then some 1 else fdiv 1 framerate

/-- A lander that climbs at one unit per time unit. -/
def climbing : Lander := { velocity := ⟨0, 1, 0⟩ }

/-- Successive calls of `Lander::integrate`, one per frame rate of the list. -/
def Lander.integrateRun (H : Heading) : List ℚ → Lander → Lander
  | [], l => l
  | fr :: frs, l => Lander.integrateRun H frs (l.integrate H fr).1

/-- A lander with zero velocity, no stored acceleration, no intent and
    damping `1`, whose turbulence accumulator holds `(1, 0, 0)`. -/
def gust : Lander := { damping := 1, turbForce := ⟨1, 0, 0⟩ }

/-- A lander with no velocity, no force and no intent. -/
def resting : Lander := { damping := 1 }

/-- The state after an altitude step whose ray hit the terrain at height `25`
    below the start position `(37, 30, 57)`: the altitude is `5`. -/
def overGround : App := App.altitudeStep (some ⟨37, 25, 57⟩) {}

/-- The part of the state that ties the collision response to the integrator:
    position, velocity, the latch and the drag flag. -/
def App.motionView (s : App) : Vec3 × Vec3 × Bool × Bool :=
  (s.obj.position, s.obj.velocity, s.clipped, s.bInDrag)

/-- One frame in the order that the specification gives (input, integration,
    spatial queries, collision response), built from the same steps as
    `update`; it is the order that `update` is compared with. -/
def App.updateSpecOrder (H : Heading) (inp : TickInput) (s : App) : Option App := do
  let s ←
    if s.bStartGame then do
      let s ← App.updateThrustKey inp.framerate s
      let s := App.updateMoveKeys s
      let s := App.updateForces inp s
      let s := App.integrateStep H inp.framerate s
      let s := App.altitudeStep inp.rayHit s
      let s := App.checkCollide inp.boxHit s
      let s := App.applyCollide s
      pure (App.fuelStep s)
    else pure s
  pure (App.endGameStep s)

/-- A running game in which the lander, falling at one unit per time unit,
    is not yet latched. -/
def fallingContact : App :=
  { bStartGame := true, obj := { velocity := ⟨0, -1, 0⟩ } }

/-- The loop body of `checkLanding` run over the pads in the order `order`
    instead of `0, 1, 2`. -/
def App.checkLandingIn (order : List (Fin 3)) (s : App) : App :=
  order.foldl App.checkLandingStep s

/-- A lander at the centre of pad 1 of the configured pads. -/
def onPadOne : App :=
  { obj := { position := ⟨280003 / 100000, 3, -768603 / 10000⟩ } }

/-- A lander two units away from the centre of pad 1, along `z`. -/
def offPadOne : App :=
  { obj := { position := ⟨280003 / 100000, 3, -768603 / 10000 + 2⟩ } }

/-- A lander at the centre of pad 2 of the configured pads. -/
def onPadTwo : App :=
  { obj := { position := ⟨-431438 / 10000, 3, 961508 / 10000⟩ } }

/-- A lander two units away from the centre of pad 2, `1.2` along `x` and
    `-1.6` along `z`. -/
def offPadTwo : App :=
  { obj := { position := ⟨-431438 / 10000 + 6 / 5, 3, 961508 / 10000 - 8 / 5⟩ } }

/-! ## Vector algebra -/

namespace Vec3

@[simp]
theorem add_x (a b : Vec3) : (a + b).x = a.x + b.x := rfl
@[simp]
theorem add_y (a b : Vec3) : (a + b).y = a.y + b.y := rfl
@[simp]
theorem add_z (a b : Vec3) : (a + b).z = a.z + b.z := rfl
@[simp]
theorem sub_x (a b : Vec3) : (a - b).x = a.x - b.x := rfl
@[simp]
theorem sub_y (a b : Vec3) : (a - b).y = a.y - b.y := rfl
@[simp]
theorem sub_z (a b : Vec3) : (a - b).z = a.z - b.z := rfl
@[simp]
theorem mul_x (a : Vec3) (k : ℚ) : (a * k).x = a.x * k := rfl
@[simp]
theorem mul_y (a : Vec3) (k : ℚ) : (a * k).y = a.y * k := rfl
@[simp]
theorem mul_z (a : Vec3) (k : ℚ) : (a * k).z = a.z * k := rfl
@[simp]
theorem smul_x (k : ℚ) (a : Vec3) : (k * a).x = a.x * k := rfl
@[simp]
theorem smul_y (k : ℚ) (a : Vec3) : (k * a).y = a.y * k := rfl
@[simp]
theorem smul_z (k : ℚ) (a : Vec3) : (k * a).z = a.z * k := rfl
@[simp]
theorem zero_x : (0 : Vec3).x = 0 := rfl
@[simp]
theorem zero_y : (0 : Vec3).y = 0 := rfl
@[simp]
theorem zero_z : (0 : Vec3).z = 0 := rfl

end Vec3

/-! ## The integrator: linear step -/

/-- The accumulated acceleration of `integrate` is the sum of the stored
    acceleration, the thrust and descend terms selected by their flags, the
    directional term and the turbulence accumulator. -/
theorem Lander.accel_eq_sum (H : Heading) (l : Lander) :
    l.accel H =
      l.acceleration + (if l.thrustUp then l.thrustForce else 0)
        + (if l.moveDown then l.downwardForce else 0)
        + directionalTerm H l + l.turbForce := by
  unfold Lander.accel directionalTerm
  cases l.thrustUp <;> cases l.moveDown <;> cases l.moveForward <;>
    cases l.moveBackward <;> cases l.moveLeft <;> cases l.moveRight <;>
    (ext <;> simp <;> ring)

/-- C1: `Lander::integrate` moves the position by the velocity of the previous
    tick times the selected `dt`, whatever the forces of this tick are, and
    replaces the velocity by `damping * (velocity + a * dt)`, where `a` is the
    stored acceleration plus the thrust, descend and directional terms that
    are switched on plus the turbulence accumulator. -/
theorem integrate_linear_step (H : Heading) (framerate : ℚ) (l : Lander) :
    (l.integrate H framerate).1.position
        = l.position + l.velocity * (if framerate = 0 then 1 else 1 / framerate) ∧
    (l.integrate H framerate).1.velocity
        = l.damping *
            (l.velocity +
              (l.acceleration + (if l.thrustUp then l.thrustForce else 0)
                + (if l.moveDown then l.downwardForce else 0)
                + (if l.moveForward then (3 : ℚ) * H.header l.rotationAngle
                   else if l.moveBackward then (-3 : ℚ) * H.header l.rotationAngle
                   else if l.moveLeft then (3 : ℚ) * H.leftRightHeader l.rotationAngle
                   else if l.moveRight then (-3 : ℚ) * H.leftRightHeader l.rotationAngle
                   else 0)
                + l.turbForce) * (if framerate = 0 then 1 else 1 / framerate)) := by
  refine ⟨rfl, ?_⟩
  have h := Lander.accel_eq_sum H l
  unfold directionalTerm at h
  rw [← h]
  ext <;> simp [Lander.integrate, Lander.dt]

/-! ## Landing evaluation: what it leaves alone -/

/-- One loop iteration of `checkLanding` writes `finalScore` and `bLanding`
    only. -/
theorem App.checkLandingStep_frame (s : App) (i : Fin 3) :
    (s.checkLandingStep i).obj = s.obj ∧
    (s.checkLandingStep i).clipped = s.clipped ∧
    (s.checkLandingStep i).bCollide = s.bCollide ∧
    (s.checkLandingStep i).bCrash = s.bCrash ∧
    (s.checkLandingStep i).collideSoundPlays = s.collideSoundPlays ∧
    (s.checkLandingStep i).explodeSoundPlays = s.explodeSoundPlays ∧
    (s.checkLandingStep i).landingAreas = s.landingAreas ∧
    (s.checkLandingStep i).landingAreaRadius = s.landingAreaRadius ∧
    (s.checkLandingStep i).landerHalfLength = s.landerHalfLength ∧
    (s.checkLandingStep i).score1 = s.score1 ∧
    (s.checkLandingStep i).score2 = s.score2 ∧
    (s.checkLandingStep i).score3 = s.score3 := by
  unfold App.checkLandingStep
  split
  · split <;> simp
  · simp

/-- The whole of `checkLanding` writes `finalScore` and `bLanding` only. -/
theorem App.checkLanding_frame (s : App) :
    s.checkLanding.obj = s.obj ∧
    s.checkLanding.clipped = s.clipped ∧
    s.checkLanding.bCollide = s.bCollide ∧
    s.checkLanding.bCrash = s.bCrash ∧
    s.checkLanding.collideSoundPlays = s.collideSoundPlays ∧
    s.checkLanding.explodeSoundPlays = s.explodeSoundPlays ∧
    s.checkLanding.landingAreas = s.landingAreas ∧
    s.checkLanding.landingAreaRadius = s.landingAreaRadius ∧
    s.checkLanding.landerHalfLength = s.landerHalfLength ∧
    s.checkLanding.score1 = s.score1 ∧
    s.checkLanding.score2 = s.score2 ∧
    s.checkLanding.score3 = s.score3 := by
  have h0 := App.checkLandingStep_frame s 0
  have h1 := App.checkLandingStep_frame (s.checkLandingStep 0) 1
  have h2 := App.checkLandingStep_frame ((s.checkLandingStep 0).checkLandingStep 1) 2
  simp only [App.checkLanding, List.foldl]
  obtain ⟨a1, a2, a3, a4, a5, a6, a7, a8, a9, a10, a11, a12⟩ := h0
  obtain ⟨b1, b2, b3, b4, b5, b6, b7, b8, b9, b10, b11, b12⟩ := h1
  obtain ⟨c1, c2, c3, c4, c5, c6, c7, c8, c9, c10, c11, c12⟩ := h2
  refine ⟨?_, ?_, ?_, ?_, ?_, ?_, ?_, ?_, ?_, ?_, ?_, ?_⟩ <;> simp [*]

/-- The result of `checkLanding` depends on the state only through the
    position, the pads and their scores, and the incoming `bLanding` and
    `finalScore`. -/
theorem App.checkLanding_congr (s t : App)
    (hp : s.obj.position = t.obj.position) (ha : s.landingAreas = t.landingAreas)
    (hr : s.landingAreaRadius = t.landingAreaRadius)
    (hh : s.landerHalfLength = t.landerHalfLength)
    (h1 : s.score1 = t.score1) (h2 : s.score2 = t.score2) (h3 : s.score3 = t.score3)
    (hl : s.bLanding = t.bLanding) (hf : s.finalScore = t.finalScore) :
    s.checkLanding.bLanding = t.checkLanding.bLanding ∧
    s.checkLanding.finalScore = t.checkLanding.finalScore := by
  have step : ∀ (i : Fin 3) (u v : App),
      u.obj.position = v.obj.position → u.landingAreas = v.landingAreas →
      u.landingAreaRadius = v.landingAreaRadius → u.landerHalfLength = v.landerHalfLength →
      u.score1 = v.score1 → u.score2 = v.score2 → u.score3 = v.score3 →
      u.bLanding = v.bLanding → u.finalScore = v.finalScore →
      (u.checkLandingStep i).bLanding = (v.checkLandingStep i).bLanding ∧
      (u.checkLandingStep i).finalScore = (v.checkLandingStep i).finalScore := by
    intro i u v hp ha hr hh h1 h2 h3 hl hf
    unfold App.checkLandingStep App.distSq App.scoreOf
    rw [hp, ha, hr, hh, h1, h2, h3]
    split
    · split <;> simp
    · simp [hl, hf]
  have f0s := App.checkLandingStep_frame s 0
  have f0t := App.checkLandingStep_frame t 0
  have f1s := App.checkLandingStep_frame (s.checkLandingStep 0) 1
  have f1t := App.checkLandingStep_frame (t.checkLandingStep 0) 1
  obtain ⟨a1, -, -, -, -, -, a7, a8, a9, a10, a11, a12⟩ := f0s
  obtain ⟨b1, -, -, -, -, -, b7, b8, b9, b10, b11, b12⟩ := f0t
  obtain ⟨c1, -, -, -, -, -, c7, c8, c9, c10, c11, c12⟩ := f1s
  obtain ⟨d1, -, -, -, -, -, d7, d8, d9, d10, d11, d12⟩ := f1t
  have e0 := step 0 s t hp ha hr hh h1 h2 h3 hl hf
  have e1 := step 1 (s.checkLandingStep 0) (t.checkLandingStep 0)
    (by rw [a1, b1, hp]) (by rw [a7, b7, ha]) (by rw [a8, b8, hr]) (by rw [a9, b9, hh])
    (by rw [a10, b10, h1]) (by rw [a11, b11, h2]) (by rw [a12, b12, h3]) e0.1 e0.2
  have e2 := step 2 ((s.checkLandingStep 0).checkLandingStep 1)
    ((t.checkLandingStep 0).checkLandingStep 1)
    (by rw [c1, d1, a1, b1, hp]) (by rw [c7, d7, a7, b7, ha]) (by rw [c8, d8, a8, b8, hr])
    (by rw [c9, d9, a9, b9, hh]) (by rw [c10, d10, a10, b10, h1])
    (by rw [c11, d11, a11, b11, h2]) (by rw [c12, d12, a12, b12, h3]) e1.1 e1.2
  simpa only [App.checkLanding, List.foldl] using e2

/-! ## Collision response -/


/-! ## Collision response -/

/-- With overlap and the latch open, `applyCollide` runs the crash test, the
    sound, the bounce, the clamp and `checkLanding`, then closes the latch. -/
theorem App.applyCollide_first (s : App) (hc : s.bCollide = true) (hk : s.clipped = false) :
    s.applyCollide =
      { App.checkLanding (App.antiClip (App.bounce
          { s.crashCheck with collideSoundPlays := s.crashCheck.collideSoundPlays + 1 })) with
        clipped := true } := by
  unfold App.applyCollide
  simp only [hc, hk, Bool.not_true, Bool.not_false, if_true, if_false, Bool.false_eq_true]

/-- With overlap and the latch closed, `applyCollide` changes nothing. -/
theorem App.applyCollide_latched (s : App) (hc : s.bCollide = true) (hk : s.clipped = true) :
    s.applyCollide = s := by
  unfold App.applyCollide
  simp only [hc, hk, Bool.not_true, Bool.not_false, if_true, if_false, Bool.false_eq_true]
  cases s
  simp only at hc hk
  subst hc hk
  rfl

/-- Without overlap, `applyCollide` only opens the latch. -/
theorem App.applyCollide_clear (s : App) (hc : s.bCollide = false) :
    s.applyCollide = { s with clipped := false } := by
  unfold App.applyCollide
  simp only [hc, Bool.not_true, Bool.not_false, if_true, if_false, Bool.false_eq_true]

/-- The crash test leaves the lander alone. -/
theorem App.crashCheck_obj (s : App) : s.crashCheck.obj = s.obj := by
  unfold App.crashCheck; split <;> rfl

/-- The crash test leaves the sound counter of the bounce alone. -/
theorem App.crashCheck_collideSoundPlays (s : App) :
    s.crashCheck.collideSoundPlays = s.collideSoundPlays := by
  unfold App.crashCheck; split <;> rfl

/-- The crash flag after the crash test. -/
theorem App.crashCheck_bCrash (s : App) :
    s.crashCheck.bCrash =
      if |s.obj.velocity.x| > 9 / 5 ∨ |s.obj.velocity.y| > 9 / 5 ∨ |s.obj.velocity.z| > 9 / 5
      then true else s.bCrash := by
  unfold App.crashCheck; split <;> rfl

/-- The clamp after the bounce yields `bounceVelocity`. -/
theorem App.antiClip_bounce_velocity (s : App) :
    (App.antiClip (App.bounce s)).obj.velocity = bounceVelocity s.obj.velocity := by
  unfold App.antiClip App.bounce bounceVelocity
  by_cases hx : (-1 / 2 : ℚ) * s.obj.velocity.x ≤ 0
  · have hx2 : s.obj.velocity.x * (-1 / 2 : ℚ) ≤ 0 := by linarith
    simp only [Vec3.smul_x, hx2, if_true, hx]
    ext <;> simp <;> ring
  · have hx2 : ¬ s.obj.velocity.x * (-1 / 2 : ℚ) ≤ 0 := fun h => hx (by linarith)
    simp only [Vec3.smul_x, hx2, if_false, hx]
    ext <;> simp <;> ring

/-- The clamp and the bounce touch the velocity and the acceleration of the
    lander only. -/
theorem App.antiClip_bounce_frame (s : App) :
    (App.antiClip (App.bounce s)).obj.acceleration = (-6 : ℚ) * s.obj.acceleration ∧
    (App.antiClip (App.bounce s)).obj.position = s.obj.position ∧
    (App.antiClip (App.bounce s)).bCrash = s.bCrash ∧
    (App.antiClip (App.bounce s)).collideSoundPlays = s.collideSoundPlays ∧
    (App.antiClip (App.bounce s)).landingAreas = s.landingAreas ∧
    (App.antiClip (App.bounce s)).landingAreaRadius = s.landingAreaRadius ∧
    (App.antiClip (App.bounce s)).landerHalfLength = s.landerHalfLength ∧
    (App.antiClip (App.bounce s)).score1 = s.score1 ∧
    (App.antiClip (App.bounce s)).score2 = s.score2 ∧
    (App.antiClip (App.bounce s)).score3 = s.score3 ∧
    (App.antiClip (App.bounce s)).bLanding = s.bLanding ∧
    (App.antiClip (App.bounce s)).finalScore = s.finalScore := by
  unfold App.antiClip
  split <;> simp [App.bounce]

/-- The fields of the state after a first overlap tick. -/
theorem App.applyCollide_first_fields (s : App) (hc : s.bCollide = true)
    (hk : s.clipped = false) :
    s.applyCollide.obj.velocity = bounceVelocity s.obj.velocity ∧
    s.applyCollide.obj.acceleration = (-6 : ℚ) * s.obj.acceleration ∧
    s.applyCollide.clipped = true ∧
    s.applyCollide.collideSoundPlays = s.collideSoundPlays + 1 ∧
    s.applyCollide.bCrash =
      (if |s.obj.velocity.x| > 9 / 5 ∨ |s.obj.velocity.y| > 9 / 5 ∨ |s.obj.velocity.z| > 9 / 5
       then true else s.bCrash) ∧
    s.applyCollide.bLanding = s.checkLanding.bLanding ∧
    s.applyCollide.finalScore = s.checkLanding.finalScore := by
  rw [App.applyCollide_first s hc hk]
  set t : App := { s.crashCheck with collideSoundPlays := s.crashCheck.collideSoundPlays + 1 }
    with ht
  have hto : t.obj = s.obj := by rw [ht]; exact App.crashCheck_obj s
  have hf := App.checkLanding_frame (App.antiClip (App.bounce t))
  have hb := App.antiClip_bounce_frame t
  have hv := App.antiClip_bounce_velocity t
  obtain ⟨f1, f2, f3, f4, f5, f6, f7, f8, f9, f10, f11, f12⟩ := hf
  obtain ⟨b1, b2, b3, b4, b5, b6, b7, b8, b9, b10, b11, b12⟩ := hb
  have hcrash : ∀ u : App, u.crashCheck.landingAreas = u.landingAreas ∧
      u.crashCheck.landingAreaRadius = u.landingAreaRadius ∧
      u.crashCheck.landerHalfLength = u.landerHalfLength ∧
      u.crashCheck.score1 = u.score1 ∧ u.crashCheck.score2 = u.score2 ∧
      u.crashCheck.score3 = u.score3 ∧ u.crashCheck.bLanding = u.bLanding ∧
      u.crashCheck.finalScore = u.finalScore := by
    intro u; unfold App.crashCheck; split <;> simp
  obtain ⟨k1, k2, k3, k4, k5, k6, k7, k8⟩ := hcrash s
  have hl := App.checkLanding_congr (App.antiClip (App.bounce t)) s
    (by rw [b2, hto]) (by rw [b5, ht]; exact k1) (by rw [b6, ht]; exact k2)
    (by rw [b7, ht]; exact k3) (by rw [b8, ht]; exact k4) (by rw [b9, ht]; exact k5)
    (by rw [b10, ht]; exact k6) (by rw [b11, ht]; exact k7) (by rw [b12, ht]; exact k8)
  refine ⟨?_, ?_, rfl, ?_, ?_, hl.1, hl.2⟩
  · show (App.checkLanding (App.antiClip (App.bounce t))).obj.velocity = _
    rw [f1, hv, hto]
  · show (App.checkLanding (App.antiClip (App.bounce t))).obj.acceleration = _
    rw [f1, b1, hto]
  · show (App.checkLanding (App.antiClip (App.bounce t))).collideSoundPlays = _
    rw [f5, b4, ht]
    show s.crashCheck.collideSoundPlays + 1 = _
    rw [App.crashCheck_collideSoundPlays]
  · show (App.checkLanding (App.antiClip (App.bounce t))).bCrash = _
    rw [f4, b3, ht]
    exact App.crashCheck_bCrash s

/-- C2: on the first overlap tick of an episode (`bCollide` true, `clipped`
    false) `applyCollide` halves and reverses the velocity, multiplies the
    stored acceleration by `-6`, then replaces the `x` velocity by `0.1` when
    the reversed value is not positive; `y` and `z` stay at `-0.5` times their
    previous values, and `clipped` becomes true. -/
theorem applyCollide_first_overlap (s : App) (hc : s.bCollide = true)
    (hk : s.clipped = false) :
    s.applyCollide.obj.velocity.x
        = (if (-1 / 2 : ℚ) * s.obj.velocity.x ≤ 0 then 1 / 10
           else (-1 / 2 : ℚ) * s.obj.velocity.x) ∧
    s.applyCollide.obj.velocity.y = (-1 / 2 : ℚ) * s.obj.velocity.y ∧
    s.applyCollide.obj.velocity.z = (-1 / 2 : ℚ) * s.obj.velocity.z ∧
    s.applyCollide.obj.acceleration.x = -6 * s.obj.acceleration.x ∧
    s.applyCollide.obj.acceleration.y = -6 * s.obj.acceleration.y ∧
    s.applyCollide.obj.acceleration.z = -6 * s.obj.acceleration.z ∧
    s.applyCollide.clipped = true := by
  obtain ⟨hv, ha, hcl, -⟩ := App.applyCollide_first_fields s hc hk
  rw [hv, ha]
  refine ⟨rfl, rfl, rfl, ?_, ?_, ?_, hcl⟩ <;> simp <;> ring

/-- Witness of C2 at `firstContact`. -/
theorem applyCollide_first_overlap_witness :
    firstContact.bCollide = true ∧ firstContact.clipped = false ∧
    firstContact.applyCollide.obj.velocity.x
        = (if (-1 / 2 : ℚ) * firstContact.obj.velocity.x ≤ 0 then 1 / 10
           else (-1 / 2 : ℚ) * firstContact.obj.velocity.x) ∧
    firstContact.applyCollide.obj.velocity.y = (-1 / 2 : ℚ) * firstContact.obj.velocity.y ∧
    firstContact.applyCollide.obj.velocity.z = (-1 / 2 : ℚ) * firstContact.obj.velocity.z ∧
    firstContact.applyCollide.obj.acceleration.x = -6 * firstContact.obj.acceleration.x ∧
    firstContact.applyCollide.obj.acceleration.y = -6 * firstContact.obj.acceleration.y ∧
    firstContact.applyCollide.obj.acceleration.z = -6 * firstContact.obj.acceleration.z ∧
    firstContact.applyCollide.clipped = true :=
  ⟨rfl, rfl, applyCollide_first_overlap firstContact rfl rfl⟩

/-- C4: on the first overlap tick, with the crash flag not yet set,
    `applyCollide` raises it exactly when a component of the velocity before
    the bounce exceeds `1.8` in magnitude; in either case the bounce writes
    the same velocity and acceleration, the collision sound is played, and
    the landing flag and score are those that `checkLanding` computes. -/
theorem applyCollide_crash_iff (s : App) (hc : s.bCollide = true) (hk : s.clipped = false)
    (hcr : s.bCrash = false) :
    (s.applyCollide.bCrash = true ↔
      |s.obj.velocity.x| > 9 / 5 ∨ |s.obj.velocity.y| > 9 / 5 ∨ |s.obj.velocity.z| > 9 / 5) ∧
    s.applyCollide.obj.velocity = bounceVelocity s.obj.velocity ∧
    s.applyCollide.obj.acceleration = (-6 : ℚ) * s.obj.acceleration ∧
    s.applyCollide.collideSoundPlays = s.collideSoundPlays + 1 ∧
    s.applyCollide.bLanding = s.checkLanding.bLanding ∧
    s.applyCollide.finalScore = s.checkLanding.finalScore := by
  obtain ⟨hv, ha, -, hs, hb, hl, hf⟩ := App.applyCollide_first_fields s hc hk
  refine ⟨?_, hv, ha, hs, hl, hf⟩
  rw [hb, hcr]
  by_cases h : |s.obj.velocity.x| > 9 / 5 ∨ |s.obj.velocity.y| > 9 / 5 ∨ |s.obj.velocity.z| > 9 / 5
  · simp [h]
  · simp only [h, if_false, iff_false]
    exact Bool.false_ne_true

/-- Witness of C4 at `firstContact`, whose `y` and `z` speeds exceed `1.8`. -/
theorem applyCollide_crash_iff_witness :
    firstContact.bCollide = true ∧ firstContact.clipped = false ∧
    firstContact.bCrash = false ∧
    ((firstContact.applyCollide.bCrash = true ↔
      |firstContact.obj.velocity.x| > 9 / 5 ∨ |firstContact.obj.velocity.y| > 9 / 5
        ∨ |firstContact.obj.velocity.z| > 9 / 5) ∧
    firstContact.applyCollide.obj.velocity = bounceVelocity firstContact.obj.velocity ∧
    firstContact.applyCollide.obj.acceleration = (-6 : ℚ) * firstContact.obj.acceleration ∧
    firstContact.applyCollide.collideSoundPlays = firstContact.collideSoundPlays + 1 ∧
    firstContact.applyCollide.bLanding = firstContact.checkLanding.bLanding ∧
    firstContact.applyCollide.finalScore = firstContact.checkLanding.finalScore) :=
  ⟨rfl, rfl, rfl, applyCollide_crash_iff firstContact rfl rfl rfl⟩

/-! ## The debounce latch over a run of frames -/

/-- After a collision step the latch equals the overlap flag of that step. -/
theorem App.collideStep_clipped (f : Bool) (s : App) : (App.collideStep f s).clipped = f := by
  unfold App.collideStep
  cases f
  · rw [App.applyCollide_clear _ rfl]
  · cases hk : s.clipped
    · exact (App.applyCollide_first_fields (App.checkCollide true s) rfl hk).2.2.1
    · rw [App.applyCollide_latched (App.checkCollide true s) rfl hk]
      exact hk

/-- A run over a concatenation is the run over the second part started from
    the result of the first. -/
theorem App.collideRun_append (other : App → App) (s : App) (fs gs : List Bool) :
    App.collideRun other s (fs ++ gs) = App.collideRun other (App.collideRun other s fs) gs := by
  induction fs generalizing s with
  | nil => rfl
  | cons f fs ih => simp only [List.cons_append, App.collideRun]; exact ih _

/-- Before frame `i` of a run the latch holds the overlap flag of frame
    `i - 1`, or its initial value when `i = 0`. -/
theorem App.collideRun_take_clipped (other : App → App)
    (hother : ∀ s, (other s).clipped = s.clipped) (s0 : App) (flags : List Bool)
    (i : Nat) (hi : i < flags.length) :
    (App.collideRun other s0 (flags.take i)).clipped
      = if i = 0 then s0.clipped else (flags[i - 1]?).getD false := by
  cases i with
  | zero => simp [App.collideRun]
  | succ j =>
    have hj : j < flags.length := Nat.lt_of_succ_lt hi
    rw [← List.take_concat_get flags j hj, List.concat_eq_append, App.collideRun_append]
    simp only [App.collideRun, hother, App.collideStep_clipped]
    simp [hj]

/-- C3: start from `clipped = false` and feed any sequence of overlap flags
    to `checkCollide` / `applyCollide`, the rest of the program doing between
    two collision steps anything that leaves the latch alone.  On frame `i`
    the bounce is applied (the collision sound is played, and the velocity and
    acceleration are rewritten) if and only if the flag of frame `i` is true
    and either `i = 0` or the flag of frame `i - 1` is false; on every other
    frame the velocity, the acceleration and the sound counter are unchanged.
    Hence in a stretch of overlap frames only the first one bounces, and one
    frame without overlap re-arms the bounce. -/
theorem bounce_debounce (other : App → App) (hother : ∀ s, (other s).clipped = s.clipped)
    (s0 : App) (h0 : s0.clipped = false) (flags : List Bool) (i : Nat)
    (hi : i < flags.length) :
    ((App.collideStep flags[i] (App.collideRun other s0 (flags.take i))).collideSoundPlays
        = (App.collideRun other s0 (flags.take i)).collideSoundPlays + 1
      ↔ (flags[i] = true ∧ (i = 0 ∨ flags[i - 1]? = some false))) ∧
    ((flags[i] = true ∧ (i = 0 ∨ flags[i - 1]? = some false)) →
      (App.collideStep flags[i] (App.collideRun other s0 (flags.take i))).obj.velocity
          = bounceVelocity (App.collideRun other s0 (flags.take i)).obj.velocity ∧
      (App.collideStep flags[i] (App.collideRun other s0 (flags.take i))).obj.acceleration
          = (-6 : ℚ) * (App.collideRun other s0 (flags.take i)).obj.acceleration) ∧
    (¬ (flags[i] = true ∧ (i = 0 ∨ flags[i - 1]? = some false)) →
      (App.collideStep flags[i] (App.collideRun other s0 (flags.take i))).obj.velocity
          = (App.collideRun other s0 (flags.take i)).obj.velocity ∧
      (App.collideStep flags[i] (App.collideRun other s0 (flags.take i))).obj.acceleration
          = (App.collideRun other s0 (flags.take i)).obj.acceleration ∧
      (App.collideStep flags[i] (App.collideRun other s0 (flags.take i))).collideSoundPlays
          = (App.collideRun other s0 (flags.take i)).collideSoundPlays) := by
  have hlatch := App.collideRun_take_clipped other hother s0 flags i hi
  rw [h0] at hlatch
  generalize App.collideRun other s0 (flags.take i) = s at hlatch ⊢
  have hprev : (i = 0 ∨ flags[i - 1]? = some false) ↔ s.clipped = false := by
    rw [hlatch]
    by_cases hz : i = 0
    · simp [hz]
    · have hlt : i - 1 < flags.length := by omega
      simp [hz, hlt]
  rw [hprev]
  unfold App.collideStep
  cases hf : flags[i]
  · rw [App.applyCollide_clear _ rfl]
    simp [App.checkCollide]
  · cases hk : s.clipped
    · obtain ⟨hv, ha, -, hs, -⟩ :=
        App.applyCollide_first_fields (App.checkCollide true s) rfl hk
      refine ⟨?_, ?_, ?_⟩
      · simp only [and_self, iff_true]; exact hs
      · intro _; exact ⟨hv, ha⟩
      · intro h; exact absurd ⟨rfl, rfl⟩ h
    · rw [App.applyCollide_latched (App.checkCollide true s) rfl hk]
      simp [App.checkCollide]

/-- Witness of C3: the flags `true, true, false, true` around `integrate`-free
    frames, at the last frame, which comes right after a frame without
    overlap. -/
theorem bounce_debounce_witness :
    (∀ s : App, (id s).clipped = s.clipped) ∧ firstContact.clipped = false ∧
    3 < overlapFlags.length ∧
    (((App.collideStep overlapFlags[3]
          (App.collideRun id firstContact (overlapFlags.take 3))).collideSoundPlays
        = (App.collideRun id firstContact (overlapFlags.take 3)).collideSoundPlays + 1
      ↔ (overlapFlags[3] = true ∧ (3 = 0 ∨ overlapFlags[3 - 1]? = some false))) ∧
    ((overlapFlags[3] = true ∧ (3 = 0 ∨ overlapFlags[3 - 1]? = some false)) →
      (App.collideStep overlapFlags[3]
          (App.collideRun id firstContact (overlapFlags.take 3))).obj.velocity
          = bounceVelocity (App.collideRun id firstContact (overlapFlags.take 3)).obj.velocity ∧
      (App.collideStep overlapFlags[3]
          (App.collideRun id firstContact (overlapFlags.take 3))).obj.acceleration
          = (-6 : ℚ) * (App.collideRun id firstContact (overlapFlags.take 3)).obj.acceleration) ∧
    (¬ (overlapFlags[3] = true ∧ (3 = 0 ∨ overlapFlags[3 - 1]? = some false)) →
      (App.collideStep overlapFlags[3]
          (App.collideRun id firstContact (overlapFlags.take 3))).obj.velocity
          = (App.collideRun id firstContact (overlapFlags.take 3)).obj.velocity ∧
      (App.collideStep overlapFlags[3]
          (App.collideRun id firstContact (overlapFlags.take 3))).obj.acceleration
          = (App.collideRun id firstContact (overlapFlags.take 3)).obj.acceleration ∧
      (App.collideStep overlapFlags[3]
          (App.collideRun id firstContact (overlapFlags.take 3))).collideSoundPlays
          = (App.collideRun id firstContact (overlapFlags.take 3)).collideSoundPlays)) :=
  ⟨fun _ => rfl, rfl, by decide,
    bounce_debounce id (fun _ => rfl) firstContact rfl overlapFlags 3 (by decide)⟩

/-! ## Landing evaluation -/

/-- The test `sqrtLe` is the comparison of the real square root. -/
theorem sqrtLe_iff_real_sqrt_le (q r : ℚ) :
    sqrtLe q r = true ↔ Real.sqrt (q : ℝ) ≤ (r : ℝ) := by
  unfold sqrtLe
  rw [decide_eq_true_iff, Real.sqrt_le_iff]
  constructor
  · rintro ⟨h1, h2⟩
    refine ⟨by exact_mod_cast h1, ?_⟩
    rw [sq]; exact_mod_cast h2
  · rintro ⟨h1, h2⟩
    refine ⟨by exact_mod_cast h1, ?_⟩
    rw [sq] at h2; exact_mod_cast h2

/-- One loop iteration in terms of `inRange` and `padScore` of the state it
    runs on. -/
theorem App.checkLandingStep_eq (u : App) (i : Fin 3) :
    (u.checkLandingStep i).bLanding = (u.bLanding || u.inRange i) ∧
    (u.checkLandingStep i).finalScore = (if u.inRange i then u.padScore i else u.finalScore) := by
  unfold App.checkLandingStep App.inRange App.padScore
  cases h : sqrtLe (u.distSq i) u.landingAreaRadius
  · simp
  · cases h2 : sqrtLe (u.distSq i) (u.landingAreaRadius - u.landerHalfLength) <;> simp

/-- The tests and scores of a pad are the same in two states that agree on the
    position, the pads and the scores. -/
theorem App.inRange_padScore_congr (u s : App) (i : Fin 3)
    (hp : u.obj = s.obj) (ha : u.landingAreas = s.landingAreas)
    (hr : u.landingAreaRadius = s.landingAreaRadius)
    (hh : u.landerHalfLength = s.landerHalfLength)
    (h1 : u.score1 = s.score1) (h2 : u.score2 = s.score2) (h3 : u.score3 = s.score3) :
    u.inRange i = s.inRange i ∧ u.padScore i = s.padScore i := by
  unfold App.inRange App.padScore App.distSq App.scoreOf
  rw [hp, ha, hr, hh, h1, h2, h3]
  exact ⟨rfl, rfl⟩

/-- The loop of `checkLanding` as a whole: the flag is raised when some pad is
    in range, and the score is that of the last pad in range. -/
theorem App.checkLanding_eq (s : App) :
    s.checkLanding.bLanding = (s.bLanding || s.inRange 0 || s.inRange 1 || s.inRange 2) ∧
    s.checkLanding.finalScore =
      (if s.inRange 2 then s.padScore 2
       else if s.inRange 1 then s.padScore 1
       else if s.inRange 0 then s.padScore 0
       else s.finalScore) := by
  obtain ⟨a1, -, -, -, -, -, a7, a8, a9, a10, a11, a12⟩ := App.checkLandingStep_frame s 0
  obtain ⟨b1, -, -, -, -, -, b7, b8, b9, b10, b11, b12⟩ :=
    App.checkLandingStep_frame (s.checkLandingStep 0) 1
  have e0 := App.checkLandingStep_eq s 0
  have e1 := App.checkLandingStep_eq (s.checkLandingStep 0) 1
  have e2 := App.checkLandingStep_eq ((s.checkLandingStep 0).checkLandingStep 1) 2
  have c1 := App.inRange_padScore_congr (s.checkLandingStep 0) s 1 a1 a7 a8 a9 a10 a11 a12
  have c2 := App.inRange_padScore_congr ((s.checkLandingStep 0).checkLandingStep 1) s 2
    (b1.trans a1) (b7.trans a7) (b8.trans a8) (b9.trans a9) (b10.trans a10) (b11.trans a11)
    (b12.trans a12)
  simp only [App.checkLanding, List.foldl]
  rw [e2.1, e2.2, e1.1, e1.2, e0.1, e0.2, c1.1, c1.2, c2.1, c2.2]
  refine ⟨rfl, ?_⟩
  cases s.inRange 2 <;> cases s.inRange 1 <;> cases s.inRange 0 <;> simp

/-- The squared planar distance without the absolute values. -/
theorem App.distSq_eq (s : App) (i : Fin 3) :
    s.distSq i = (s.obj.position.x - (s.landingAreas i).x) ^ 2
      + (s.obj.position.z - (s.landingAreas i).z) ^ 2 := by
  unfold App.distSq
  simp only [abs_mul_abs_self]
  ring

/-- Being in range, stated with the real planar distance. -/
theorem App.inRange_iff (s : App) (i : Fin 3) :
    s.inRange i = true ↔ Real.sqrt ((s.distSq i : ℚ) : ℝ) ≤ ((s.landingAreaRadius : ℚ) : ℝ) :=
  sqrtLe_iff_real_sqrt_le _ _

/-- The score of a pad, stated with the real planar distance. -/
theorem App.padScore_eq (s : App) (i : Fin 3) :
    (Real.sqrt ((s.distSq i : ℚ) : ℝ) ≤ ((s.landingAreaRadius - s.landerHalfLength : ℚ) : ℝ) →
      s.padScore i = s.scoreOf i) ∧
    (¬ Real.sqrt ((s.distSq i : ℚ) : ℝ) ≤ ((s.landingAreaRadius - s.landerHalfLength : ℚ) : ℝ) →
      s.padScore i = s.scoreOf i / 2) := by
  unfold App.padScore
  rw [← sqrtLe_iff_real_sqrt_le]
  constructor
  · intro h; rw [if_pos h]
  · intro h; rw [if_neg h]

/-- The tests of `checkLanding` at `onPadCentre`: pad 0 alone is in range, at the
    squared distance `0`. -/
theorem onPadCentre_facts :
    onPadCentre.inRange 0 = true ∧ onPadCentre.inRange 1 = false ∧ onPadCentre.inRange 2 = false ∧
    onPadCentre.distSq 0 = 0 ∧
    sqrtLe (onPadCentre.distSq 0) (onPadCentre.landingAreaRadius - onPadCentre.landerHalfLength) = true := by
  simp only [App.inRange, App.distSq_eq, sqrtLe, onPadCentre, landingAreasSetup]
  norm_num

/-- The tests of `checkLanding` at `offPadCentre`: pad 0 alone is in range, at the
    squared distance `4`. -/
theorem offPadCentre_facts :
    offPadCentre.inRange 0 = true ∧ offPadCentre.inRange 1 = false ∧ offPadCentre.inRange 2 = false ∧
    offPadCentre.distSq 0 = 4 ∧
    sqrtLe (offPadCentre.distSq 0) (offPadCentre.landingAreaRadius - offPadCentre.landerHalfLength) = false := by
  simp only [App.inRange, App.distSq_eq, sqrtLe, offPadCentre, landingAreasSetup]
  norm_num

/-- The tests of `checkLanding` at `onPadOne`: pad 1 alone is in range, at the
    squared distance `0`. -/
theorem onPadOne_facts :
    onPadOne.inRange 0 = false ∧ onPadOne.inRange 1 = true ∧ onPadOne.inRange 2 = false ∧
    onPadOne.distSq 1 = 0 ∧
    sqrtLe (onPadOne.distSq 1) (onPadOne.landingAreaRadius - onPadOne.landerHalfLength) = true := by
  simp only [App.inRange, App.distSq_eq, sqrtLe, onPadOne, landingAreasSetup]
  norm_num

/-- The tests of `checkLanding` at `offPadOne`: pad 1 alone is in range, at the
    squared distance `4`. -/
theorem offPadOne_facts :
    offPadOne.inRange 0 = false ∧ offPadOne.inRange 1 = true ∧ offPadOne.inRange 2 = false ∧
    offPadOne.distSq 1 = 4 ∧
    sqrtLe (offPadOne.distSq 1) (offPadOne.landingAreaRadius - offPadOne.landerHalfLength) = false := by
  simp only [App.inRange, App.distSq_eq, sqrtLe, offPadOne, landingAreasSetup]
  norm_num

/-- The tests of `checkLanding` at `onPadTwo`: pad 2 alone is in range, at the
    squared distance `0`. -/
theorem onPadTwo_facts :
    onPadTwo.inRange 0 = false ∧ onPadTwo.inRange 1 = false ∧ onPadTwo.inRange 2 = true ∧
    onPadTwo.distSq 2 = 0 ∧
    sqrtLe (onPadTwo.distSq 2) (onPadTwo.landingAreaRadius - onPadTwo.landerHalfLength) = true := by
  simp only [App.inRange, App.distSq_eq, sqrtLe, onPadTwo, landingAreasSetup]
  norm_num

/-- The tests of `checkLanding` at `offPadTwo`: pad 2 alone is in range, at the
    squared distance `4`. -/
theorem offPadTwo_facts :
    offPadTwo.inRange 0 = false ∧ offPadTwo.inRange 1 = false ∧ offPadTwo.inRange 2 = true ∧
    offPadTwo.distSq 2 = 4 ∧
    sqrtLe (offPadTwo.distSq 2) (offPadTwo.landingAreaRadius - offPadTwo.landerHalfLength) = false := by
  simp only [App.inRange, App.distSq_eq, sqrtLe, offPadTwo, landingAreasSetup]
  norm_num

/-- The score recorded by `checkLanding` is that of the last pad in range. -/
theorem App.checkLanding_last (s : App) (m : Fin 3) (hin : s.inRange m = true)
    (hlast : ∀ k : Fin 3, m < k → s.inRange k = false) :
    s.checkLanding.finalScore = s.padScore m := by
  have h := (App.checkLanding_eq s).2
  have h1 := hlast 1
  have h2 := hlast 2
  rw [h]
  match m, hin, h1, h2 with
  | 0, hin, h1, h2 =>
    rw [h2 (by decide), h1 (by decide), hin]; simp
  | 1, hin, h1, h2 =>
    rw [h2 (by decide), hin]; simp
  | 2, hin, h1, h2 =>
    rw [hin]; simp

/-- The landing flag after `checkLanding` when some pad is in range. -/
theorem App.checkLanding_flag (s : App) (i : Fin 3) (hin : s.inRange i = true) :
    s.checkLanding.bLanding = true := by
  rw [(App.checkLanding_eq s).1]
  match i, hin with
  | 0, hin => rw [hin]; simp
  | 1, hin => rw [hin]; simp
  | 2, hin => rw [hin]; simp

/-- The flag and the score recorded by `checkLanding` when one pad only is in
    range. -/
theorem App.checkLanding_sole (s : App) (i : Fin 3) (hin : s.inRange i = true)
    (honly : ∀ j : Fin 3, j ≠ i → s.inRange j = false) :
    s.checkLanding.bLanding = true ∧ s.checkLanding.finalScore = s.padScore i :=
  ⟨App.checkLanding_flag s i hin,
    App.checkLanding_last s i hin fun k hk => honly k (ne_of_gt hk)⟩

/-- C5: write `d` for the planar distance from the lander to the centre of
    pad `i`, the square root of `(x - pad.x)^2 + (z - pad.z)^2`.  Whenever
    `d <= radius`, `checkLanding` sets the landing flag; if pad `i` is the only
    pad in range, `finalScore` is the full score of pad `i` (`score1` for pad
    0, `score2` for pad 1, `score3` for pad 2) when
    `d <= radius - landerHalfLength` and exactly half of it otherwise.  If no
    pad is in range, the flag and `finalScore` keep their values.  With the
    configured radius `2.5` and half length `1` the score is `100` at distance
    `0` and `50` at distance `2` from pad 0 (score `100`), `200` and `100` for
    pad 1, `300` and `150` for pad 2. -/
theorem checkLanding_scoring (s : App) :
    (∀ i : Fin 3,
      Real.sqrt ((((s.obj.position.x - (s.landingAreas i).x) ^ 2
        + (s.obj.position.z - (s.landingAreas i).z) ^ 2 : ℚ) : ℝ))
        ≤ ((s.landingAreaRadius : ℚ) : ℝ) →
      s.checkLanding.bLanding = true ∧
      ((∀ j : Fin 3, j ≠ i →
          ¬ Real.sqrt ((((s.obj.position.x - (s.landingAreas j).x) ^ 2
            + (s.obj.position.z - (s.landingAreas j).z) ^ 2 : ℚ) : ℝ))
            ≤ ((s.landingAreaRadius : ℚ) : ℝ)) →
        (Real.sqrt ((((s.obj.position.x - (s.landingAreas i).x) ^ 2
            + (s.obj.position.z - (s.landingAreas i).z) ^ 2 : ℚ) : ℝ))
            ≤ ((s.landingAreaRadius - s.landerHalfLength : ℚ) : ℝ) →
          s.checkLanding.finalScore = ![s.score1, s.score2, s.score3] i) ∧
        (¬ Real.sqrt ((((s.obj.position.x - (s.landingAreas i).x) ^ 2
            + (s.obj.position.z - (s.landingAreas i).z) ^ 2 : ℚ) : ℝ))
            ≤ ((s.landingAreaRadius - s.landerHalfLength : ℚ) : ℝ) →
          s.checkLanding.finalScore = ![s.score1, s.score2, s.score3] i / 2))) ∧
    ((∀ j : Fin 3,
        ¬ Real.sqrt ((((s.obj.position.x - (s.landingAreas j).x) ^ 2
          + (s.obj.position.z - (s.landingAreas j).z) ^ 2 : ℚ) : ℝ))
          ≤ ((s.landingAreaRadius : ℚ) : ℝ)) →
      s.checkLanding.bLanding = s.bLanding ∧ s.checkLanding.finalScore = s.finalScore) ∧
    (onPadCentre.landingAreaRadius = 5 / 2 ∧ onPadCentre.landerHalfLength = 1 ∧
      onPadCentre.score1 = 100 ∧ onPadCentre.score2 = 200 ∧ onPadCentre.score3 = 300) ∧
    (Real.sqrt ((((onPadCentre.obj.position.x - (onPadCentre.landingAreas 0).x) ^ 2
        + (onPadCentre.obj.position.z - (onPadCentre.landingAreas 0).z) ^ 2 : ℚ) : ℝ)) = 0 ∧
      onPadCentre.checkLanding.bLanding = true ∧ onPadCentre.checkLanding.finalScore = 100) ∧
    (Real.sqrt ((((offPadCentre.obj.position.x - (offPadCentre.landingAreas 0).x) ^ 2
        + (offPadCentre.obj.position.z - (offPadCentre.landingAreas 0).z) ^ 2 : ℚ) : ℝ)) = 2 ∧
      offPadCentre.checkLanding.bLanding = true ∧ offPadCentre.checkLanding.finalScore = 50) ∧
    (Real.sqrt ((((onPadOne.obj.position.x - (onPadOne.landingAreas 1).x) ^ 2
        + (onPadOne.obj.position.z - (onPadOne.landingAreas 1).z) ^ 2 : ℚ) : ℝ)) = 0 ∧
      onPadOne.checkLanding.bLanding = true ∧ onPadOne.checkLanding.finalScore = 200) ∧
    (Real.sqrt ((((offPadOne.obj.position.x - (offPadOne.landingAreas 1).x) ^ 2
        + (offPadOne.obj.position.z - (offPadOne.landingAreas 1).z) ^ 2 : ℚ) : ℝ)) = 2 ∧
      offPadOne.checkLanding.bLanding = true ∧ offPadOne.checkLanding.finalScore = 100) ∧
    (Real.sqrt ((((onPadTwo.obj.position.x - (onPadTwo.landingAreas 2).x) ^ 2
        + (onPadTwo.obj.position.z - (onPadTwo.landingAreas 2).z) ^ 2 : ℚ) : ℝ)) = 0 ∧
      onPadTwo.checkLanding.bLanding = true ∧ onPadTwo.checkLanding.finalScore = 300) ∧
    (Real.sqrt ((((offPadTwo.obj.position.x - (offPadTwo.landingAreas 2).x) ^ 2
        + (offPadTwo.obj.position.z - (offPadTwo.landingAreas 2).z) ^ 2 : ℚ) : ℝ)) = 2 ∧
      offPadTwo.checkLanding.bLanding = true ∧ offPadTwo.checkLanding.finalScore = 150) := by
  have hdist : ∀ (t : App) (i : Fin 3),
      (t.obj.position.x - (t.landingAreas i).x) ^ 2
        + (t.obj.position.z - (t.landingAreas i).z) ^ 2 = t.distSq i := by
    intro t i
    unfold App.distSq
    simp only [abs_mul_abs_self]
    ring
  have hscore : ∀ i : Fin 3, ![s.score1, s.score2, s.score3] i = s.scoreOf i := by
    intro i
    match i with
    | 0 => rfl
    | 1 => rfl
    | 2 => rfl
  simp only [hdist, hscore]
  refine ⟨?_, ?_, ⟨rfl, rfl, rfl, rfl, rfl⟩, ?_, ?_, ?_, ?_, ?_, ?_⟩
  · intro i hi
    have hin : s.inRange i = true := (App.inRange_iff s i).2 hi
    refine ⟨App.checkLanding_flag s i hin, fun honly => ?_⟩
    have hothers : ∀ j : Fin 3, j ≠ i → s.inRange j = false := by
      intro j hj
      have := honly j hj
      rw [← App.inRange_iff] at this
      simpa using this
    rw [(App.checkLanding_sole s i hin hothers).2]
    exact App.padScore_eq s i
  · intro hnone
    have hn : ∀ j : Fin 3, s.inRange j = false := by
      intro j
      have := hnone j
      rw [← App.inRange_iff] at this
      simpa using this
    obtain ⟨hL, hF⟩ := App.checkLanding_eq s
    rw [hL, hF, hn 0, hn 1, hn 2]
    simp
  · obtain ⟨h0, h1, h2, hd, hfull⟩ := onPadCentre_facts
    obtain ⟨hl, hf⟩ := App.checkLanding_sole onPadCentre 0 h0 (by
      intro j hj
      match j, hj with
      | 0, hj => exact absurd rfl hj
      | 1, _ => exact h1
      | 2, _ => exact h2)
    have hs : onPadCentre.scoreOf 0 = 100 := rfl
    have hp : onPadCentre.padScore 0 = 100 := by
      unfold App.padScore
      rw [hfull, hs]
      norm_num
    refine ⟨?_, hl, hf.trans hp⟩
    rw [hd]; simp
  · obtain ⟨h0, h1, h2, hd, hfull⟩ := offPadCentre_facts
    obtain ⟨hl, hf⟩ := App.checkLanding_sole offPadCentre 0 h0 (by
      intro j hj
      match j, hj with
      | 0, hj => exact absurd rfl hj
      | 1, _ => exact h1
      | 2, _ => exact h2)
    have hs : offPadCentre.scoreOf 0 = 100 := rfl
    have hp : offPadCentre.padScore 0 = 50 := by
      unfold App.padScore
      rw [hfull, hs]
      norm_num
    refine ⟨?_, hl, hf.trans hp⟩
    rw [hd, show ((4 : ℚ) : ℝ) = 2 * 2 by norm_num]
    exact Real.sqrt_mul_self (by norm_num)
  · obtain ⟨h0, h1, h2, hd, hfull⟩ := onPadOne_facts
    obtain ⟨hl, hf⟩ := App.checkLanding_sole onPadOne 1 h1 (by
      intro j hj
      match j, hj with
      | 0, _ => exact h0
      | 1, hj => exact absurd rfl hj
      | 2, _ => exact h2)
    have hs : onPadOne.scoreOf 1 = 200 := rfl
    have hp : onPadOne.padScore 1 = 200 := by
      unfold App.padScore
      rw [hfull, hs]
      norm_num
    refine ⟨?_, hl, hf.trans hp⟩
    rw [hd]; simp
  · obtain ⟨h0, h1, h2, hd, hfull⟩ := offPadOne_facts
    obtain ⟨hl, hf⟩ := App.checkLanding_sole offPadOne 1 h1 (by
      intro j hj
      match j, hj with
      | 0, _ => exact h0
      | 1, hj => exact absurd rfl hj
      | 2, _ => exact h2)
    have hs : offPadOne.scoreOf 1 = 200 := rfl
    have hp : offPadOne.padScore 1 = 100 := by
      unfold App.padScore
      rw [hfull, hs]
      norm_num
    refine ⟨?_, hl, hf.trans hp⟩
    rw [hd, show ((4 : ℚ) : ℝ) = 2 * 2 by norm_num]
    exact Real.sqrt_mul_self (by norm_num)
  · obtain ⟨h0, h1, h2, hd, hfull⟩ := onPadTwo_facts
    obtain ⟨hl, hf⟩ := App.checkLanding_sole onPadTwo 2 h2 (by
      intro j hj
      match j, hj with
      | 0, _ => exact h0
      | 1, _ => exact h1
      | 2, hj => exact absurd rfl hj)
    have hs : onPadTwo.scoreOf 2 = 300 := rfl
    have hp : onPadTwo.padScore 2 = 300 := by
      unfold App.padScore
      rw [hfull, hs]
      norm_num
    refine ⟨?_, hl, hf.trans hp⟩
    rw [hd]; simp
  · obtain ⟨h0, h1, h2, hd, hfull⟩ := offPadTwo_facts
    obtain ⟨hl, hf⟩ := App.checkLanding_sole offPadTwo 2 h2 (by
      intro j hj
      match j, hj with
      | 0, _ => exact h0
      | 1, _ => exact h1
      | 2, hj => exact absurd rfl hj)
    have hs : offPadTwo.scoreOf 2 = 300 := rfl
    have hp : offPadTwo.padScore 2 = 150 := by
      unfold App.padScore
      rw [hfull, hs]
      norm_num
    refine ⟨?_, hl, hf.trans hp⟩
    rw [hd, show ((4 : ℚ) : ℝ) = 2 * 2 by norm_num]
    exact Real.sqrt_mul_self (by norm_num)

/-- Witness of C5 at `offPadTwo`: two units from the centre of pad 2, the only
    pad in range, the landing flag is set and the score is half of `score3`,
    that is `150`. -/
theorem checkLanding_scoring_witness :
    Real.sqrt ((((offPadTwo.obj.position.x - (offPadTwo.landingAreas 2).x) ^ 2
        + (offPadTwo.obj.position.z - (offPadTwo.landingAreas 2).z) ^ 2 : ℚ) : ℝ))
        ≤ ((offPadTwo.landingAreaRadius : ℚ) : ℝ) ∧
    (∀ j : Fin 3, j ≠ 2 →
      ¬ Real.sqrt ((((offPadTwo.obj.position.x - (offPadTwo.landingAreas j).x) ^ 2
          + (offPadTwo.obj.position.z - (offPadTwo.landingAreas j).z) ^ 2 : ℚ) : ℝ))
          ≤ ((offPadTwo.landingAreaRadius : ℚ) : ℝ)) ∧
    ¬ Real.sqrt ((((offPadTwo.obj.position.x - (offPadTwo.landingAreas 2).x) ^ 2
        + (offPadTwo.obj.position.z - (offPadTwo.landingAreas 2).z) ^ 2 : ℚ) : ℝ))
        ≤ ((offPadTwo.landingAreaRadius - offPadTwo.landerHalfLength : ℚ) : ℝ) ∧
    offPadTwo.checkLanding.bLanding = true ∧
    offPadTwo.checkLanding.finalScore
      = ![offPadTwo.score1, offPadTwo.score2, offPadTwo.score3] 2 / 2 ∧
    ![offPadTwo.score1, offPadTwo.score2, offPadTwo.score3] 2 / 2 = 150 := by
  obtain ⟨h0, h1, h2, hd, hfull⟩ := offPadTwo_facts
  have hdist : ∀ i : Fin 3,
      (offPadTwo.obj.position.x - (offPadTwo.landingAreas i).x) ^ 2
        + (offPadTwo.obj.position.z - (offPadTwo.landingAreas i).z) ^ 2
        = offPadTwo.distSq i := by
    intro i
    unfold App.distSq
    simp only [abs_mul_abs_self]
    ring
  have hin : Real.sqrt ((((offPadTwo.obj.position.x - (offPadTwo.landingAreas 2).x) ^ 2
        + (offPadTwo.obj.position.z - (offPadTwo.landingAreas 2).z) ^ 2 : ℚ) : ℝ))
        ≤ ((offPadTwo.landingAreaRadius : ℚ) : ℝ) := by
    rw [hdist]
    exact (App.inRange_iff offPadTwo 2).1 h2
  have hout : ∀ j : Fin 3, j ≠ 2 →
      ¬ Real.sqrt ((((offPadTwo.obj.position.x - (offPadTwo.landingAreas j).x) ^ 2
          + (offPadTwo.obj.position.z - (offPadTwo.landingAreas j).z) ^ 2 : ℚ) : ℝ))
          ≤ ((offPadTwo.landingAreaRadius : ℚ) : ℝ) := by
    intro j hj
    rw [hdist, ← App.inRange_iff]
    match j, hj with
    | 0, _ => rw [h0]; exact Bool.false_ne_true
    | 1, _ => rw [h1]; exact Bool.false_ne_true
    | 2, hj => exact absurd rfl hj
  have hhalf : ¬ Real.sqrt ((((offPadTwo.obj.position.x - (offPadTwo.landingAreas 2).x) ^ 2
        + (offPadTwo.obj.position.z - (offPadTwo.landingAreas 2).z) ^ 2 : ℚ) : ℝ))
        ≤ ((offPadTwo.landingAreaRadius - offPadTwo.landerHalfLength : ℚ) : ℝ) := by
    rw [hdist, ← sqrtLe_iff_real_sqrt_le, hfull]
    exact Bool.false_ne_true
  refine ⟨hin, hout, hhalf, ((checkLanding_scoring offPadTwo).1 2 hin).1,
    (((checkLanding_scoring offPadTwo).1 2 hin).2 hout).2 hhalf, ?_⟩
  show offPadTwo.score3 / 2 = 150
  simp only [offPadTwo]
  norm_num

/-- C6: `checkLanding` is last-matching-pad-wins.  For any three pad centres
    and any lander position with two pads `i < m` within the radius, `m` being
    the matching pad of highest index, the recorded `finalScore` is the one
    computed for pad `m` (full or halved according to the distance to pad
    `m`), whatever was computed for pad `i`. -/
theorem checkLanding_last_match_wins (s : App) (i m : Fin 3) (him : i < m)
    (hi : Real.sqrt ((s.distSq i : ℚ) : ℝ) ≤ ((s.landingAreaRadius : ℚ) : ℝ))
    (hm : Real.sqrt ((s.distSq m : ℚ) : ℝ) ≤ ((s.landingAreaRadius : ℚ) : ℝ))
    (hlast : ∀ k : Fin 3, m < k →
      ¬ Real.sqrt ((s.distSq k : ℚ) : ℝ) ≤ ((s.landingAreaRadius : ℚ) : ℝ)) :
    (Real.sqrt ((s.distSq m : ℚ) : ℝ) ≤ ((s.landingAreaRadius - s.landerHalfLength : ℚ) : ℝ) →
      s.checkLanding.finalScore = s.scoreOf m) ∧
    (¬ Real.sqrt ((s.distSq m : ℚ) : ℝ)
        ≤ ((s.landingAreaRadius - s.landerHalfLength : ℚ) : ℝ) →
      s.checkLanding.finalScore = s.scoreOf m / 2) := by
  have hin : s.inRange m = true := (App.inRange_iff s m).2 hm
  have hl : ∀ k : Fin 3, m < k → s.inRange k = false := by
    intro k hk
    have := hlast k hk
    rw [← App.inRange_iff] at this
    simpa using this
  rw [App.checkLanding_last s m hin hl]
  exact App.padScore_eq s m

/-- At `stackedPads` pads 0 and 1 are in range at distance `2`, pad 2 is
    not. -/
theorem stackedPads_facts :
    stackedPads.inRange 0 = true ∧ stackedPads.inRange 1 = true ∧
    stackedPads.inRange 2 = false ∧ stackedPads.distSq 1 = 4 ∧
    stackedPads.padScore 0 = 50 ∧ stackedPads.scoreOf 1 = 200 := by
  simp only [App.inRange, App.padScore, App.distSq_eq, sqrtLe, stackedPads, stackedAreas,
    App.scoreOf]
  norm_num

/-- Witness of C6 at `stackedPads`: pads 0 and 1 both match, pad 1 is the last
    match, and the recorded score is half the score of pad 1, not the `50`
    computed for pad 0. -/
theorem checkLanding_last_match_wins_witness :
    (0 : Fin 3) < 1 ∧
    Real.sqrt ((stackedPads.distSq 0 : ℚ) : ℝ) ≤ ((stackedPads.landingAreaRadius : ℚ) : ℝ) ∧
    Real.sqrt ((stackedPads.distSq 1 : ℚ) : ℝ) ≤ ((stackedPads.landingAreaRadius : ℚ) : ℝ) ∧
    (∀ k : Fin 3, 1 < k →
      ¬ Real.sqrt ((stackedPads.distSq k : ℚ) : ℝ)
          ≤ ((stackedPads.landingAreaRadius : ℚ) : ℝ)) ∧
    stackedPads.checkLanding.finalScore = stackedPads.scoreOf 1 / 2 := by
  obtain ⟨h0, h1, h2, hd, -, -⟩ := stackedPads_facts
  have hi := (App.inRange_iff stackedPads 0).1 h0
  have hm := (App.inRange_iff stackedPads 1).1 h1
  have hlast : ∀ k : Fin 3, 1 < k →
      ¬ Real.sqrt ((stackedPads.distSq k : ℚ) : ℝ)
          ≤ ((stackedPads.landingAreaRadius : ℚ) : ℝ) := by
    intro k hk
    rw [← App.inRange_iff]
    match k, hk with
    | 0, hk => exact absurd hk (by decide)
    | 1, hk => exact absurd hk (by decide)
    | 2, _ => rw [h2]; exact Bool.false_ne_true
  have hhalf : ¬ Real.sqrt ((stackedPads.distSq 1 : ℚ) : ℝ)
      ≤ ((stackedPads.landingAreaRadius - stackedPads.landerHalfLength : ℚ) : ℝ) := by
    rw [← sqrtLe_iff_real_sqrt_le, hd]
    simp only [sqrtLe, stackedPads]
    norm_num
  exact ⟨by decide, hi, hm, hlast,
    (checkLanding_last_match_wins stackedPads 0 1 (by decide) hi hm hlast).2 hhalf⟩

/-! ## Fuel and thrust through one frame -/

/-- A key statement that sets a move flag leaves the fuel accounting alone. -/
theorem App.whenKey_fuelView (key : Bool) (set : Lander → Lander) (s : App)
    (hset : ∀ l, (set l).thrustUp = l.thrustUp ∧ (set l).fuelTimeLeft = l.fuelTimeLeft) :
    (App.whenKey key set s).fuelView = s.fuelView := by
  unfold App.whenKey App.fuelView
  cases key
  · rfl
  · simp only [if_true, (hset s.obj).1, (hset s.obj).2]

/-- The move keys leave the fuel accounting alone. -/
theorem App.updateMoveKeys_fuelView (s : App) : s.updateMoveKeys.fuelView = s.fuelView := by
  unfold App.updateMoveKeys
  simp only []
  iterate 7
    refine (App.whenKey_fuelView _ _ _ ?_).trans ?_
    · exact fun _ => ⟨rfl, rfl⟩
  rfl

/-- The force reset leaves the fuel accounting alone. -/
theorem App.updateForces_fuelView (inp : TickInput) (s : App) :
    (s.updateForces inp).fuelView = s.fuelView := rfl

/-- The altitude sensor leaves the fuel accounting alone. -/
theorem App.altitudeStep_fuelView (r : Option Vec3) (s : App) :
    (s.altitudeStep r).fuelView = s.fuelView := by
  cases r <;> rfl

/-- The box query leaves the fuel accounting alone. -/
theorem App.checkCollide_fuelView (b : Bool) (s : App) :
    (s.checkCollide b).fuelView = s.fuelView := rfl

/-- The landing evaluation leaves the fuel accounting alone. -/
theorem App.checkLanding_fuelView (s : App) : s.checkLanding.fuelView = s.fuelView := by
  have step : ∀ (u : App) (i : Fin 3), (u.checkLandingStep i).fuelView = u.fuelView := by
    intro u i
    unfold App.checkLandingStep
    split
    · split <;> rfl
    · rfl
  simp only [App.checkLanding, List.foldl, step]

/-- The collision response leaves the fuel accounting alone. -/
theorem App.applyCollide_fuelView (s : App) : s.applyCollide.fuelView = s.fuelView := by
  cases hc : s.bCollide
  · rw [App.applyCollide_clear s hc]; rfl
  · cases hk : s.clipped
    · rw [App.applyCollide_first s hc hk]
      show (App.checkLanding _).fuelView = _
      rw [App.checkLanding_fuelView]
      unfold App.antiClip
      split
      · unfold App.bounce App.crashCheck
        split <;> rfl
      · unfold App.bounce App.crashCheck
        split <;> rfl
    · rw [App.applyCollide_latched s hc hk]

/-- The integrator leaves the fuel accounting alone. -/
theorem App.integrateStep_fuelView (H : Heading) (fr : ℚ) (s : App) :
    (s.integrateStep H fr).fuelView = s.fuelView := by
  unfold App.integrateStep
  split <;> rfl

/-- The end-of-game test leaves the fuel accounting alone. -/
theorem App.endGameStep_fuelView (s : App) : s.endGameStep.fuelView = s.fuelView := by
  unfold App.endGameStep
  split <;> rfl

/-- The fuel accounting after the thrust key has been read, for a held key. -/
theorem App.updateThrustKey_held (fr : ℚ) (s : App) (hs : s.keymap.space = true) :
    (0 < s.obj.fuelTimeLeft → fr ≠ 0 →
      ∃ p, s.updateThrustKey fr = some p ∧ p.fuelView = (true, s.obj.fuelTimeLeft, 1 / fr)) ∧
    (0 < s.obj.fuelTimeLeft → fr = 0 → s.updateThrustKey fr = none) ∧
    (¬ 0 < s.obj.fuelTimeLeft →
      ∃ p, s.updateThrustKey fr = some p ∧ p.fuelView = (false, 0, s.startThrust)) := by
  unfold App.updateThrustKey
  refine ⟨?_, ?_, ?_⟩
  · intro hf hfr
    simp only [hs, if_true, gt_iff_lt, hf, fdiv, hfr, if_false]
    exact ⟨_, rfl, rfl⟩
  · intro hf hfr
    simp only [hs, if_true, gt_iff_lt, hf, fdiv, hfr]
    rfl
  · intro hf
    simp only [hs, if_true, gt_iff_lt, hf, if_false]
    exact ⟨_, rfl, rfl⟩

/-- The fuel accounting carried from the thrust key to the call of
    `integrate`. -/
theorem App.preIntegrate_fuelView (inp : TickInput) (s p : App)
    (hp : s.updateThrustKey inp.framerate = some p) :
    ∃ q, s.preIntegrate inp = some q ∧ q.fuelView = p.fuelView := by
  unfold App.preIntegrate
  rw [hp]
  refine ⟨_, rfl, ?_⟩
  rw [App.applyCollide_fuelView, App.checkCollide_fuelView, App.altitudeStep_fuelView,
    App.updateForces_fuelView, App.updateMoveKeys_fuelView]

/-- The fuel charge at the end of the frame. -/
theorem App.fuelStep_fuelView (s : App) :
    s.fuelStep.fuelView
      = (s.obj.thrustUp,
         if s.obj.thrustUp then s.obj.fuelTimeLeft - s.startThrust else s.obj.fuelTimeLeft,
         s.startThrust) := by
  unfold App.fuelStep App.fuelView
  cases h : s.obj.thrustUp
  · simp [h]
  · simp [h]

/-- One frame of a running game with the thrust key held: the fuel accounting
    of the resulting state, and the one frame rate at which the frame has no
    finite result. -/
theorem App.update_thrust_held (H : Heading) (inp : TickInput) (s : App)
    (hg : s.bStartGame = true) (hs : s.keymap.space = true) :
    (0 < s.obj.fuelTimeLeft → inp.framerate ≠ 0 →
      ∃ s', s.update H inp = some s' ∧
        s'.fuelView = (true, s.obj.fuelTimeLeft - 1 / inp.framerate, 1 / inp.framerate)) ∧
    (0 < s.obj.fuelTimeLeft → inp.framerate = 0 → s.update H inp = none) ∧
    (¬ 0 < s.obj.fuelTimeLeft →
      ∃ s', s.update H inp = some s' ∧ s'.fuelView = (false, 0, s.startThrust)) := by
  obtain ⟨k1, k2, k3⟩ := App.updateThrustKey_held inp.framerate s hs
  have run : ∀ p, s.updateThrustKey inp.framerate = some p →
      ∃ s', s.update H inp = some s' ∧
        s'.fuelView = (p.fuelView.1,
          if p.fuelView.1 then p.fuelView.2.1 - p.fuelView.2.2 else p.fuelView.2.1,
          p.fuelView.2.2) := by
    intro p hp
    obtain ⟨q, hq, hqv⟩ := App.preIntegrate_fuelView inp s p hp
    unfold App.update
    rw [hg, hq]
    refine ⟨_, rfl, ?_⟩
    rw [App.endGameStep_fuelView, App.fuelStep_fuelView]
    have hi := App.integrateStep_fuelView H inp.framerate q
    rw [hqv] at hi
    have e1 : (q.integrateStep H inp.framerate).obj.thrustUp = p.fuelView.1 :=
      congrArg Prod.fst hi
    have e2 : (q.integrateStep H inp.framerate).obj.fuelTimeLeft = p.fuelView.2.1 :=
      congrArg (fun v => v.2.1) hi
    have e3 : (q.integrateStep H inp.framerate).startThrust = p.fuelView.2.2 :=
      congrArg (fun v => v.2.2) hi
    rw [e1, e2, e3]
  refine ⟨?_, ?_, ?_⟩
  · intro hf hfr
    obtain ⟨p, hp, hpv⟩ := k1 hf hfr
    obtain ⟨s', hs', hv⟩ := run p hp
    refine ⟨s', hs', ?_⟩
    rw [hv, hpv]
    rfl
  · intro hf hfr
    unfold App.update App.preIntegrate
    rw [hg, k2 hf hfr]
    rfl
  · intro hf
    obtain ⟨p, hp, hpv⟩ := k3 hf
    obtain ⟨s', hs', hv⟩ := run p hp
    refine ⟨s', hs', ?_⟩
    rw [hv, hpv]
    rfl

/-! ## Thrust, fuel and the directional intents -/

/-- The velocity written by `integrate`, in terms of the accumulated
    acceleration. -/
theorem Lander.integrate_velocity (H : Heading) (fr : ℚ) (l : Lander) :
    (l.integrate H fr).1.velocity = l.damping * (l.velocity + l.accel H * Lander.dt fr) := by
  ext <;> simp [Lander.integrate]

/-- The accumulated acceleration is the one with the move flags cleared plus
    the directional term. -/
theorem Lander.accel_clearMoves (H : Heading) (l : Lander) :
    l.accel H = l.clearMoves.accel H + directionalTerm H l := by
  rw [Lander.accel_eq_sum H l, Lander.accel_eq_sum H l.clearMoves]
  simp only [Lander.clearMoves, directionalTerm, Bool.false_eq_true, if_false]
  ext <;> simp <;> ring

/-- The accumulated acceleration is the one with the thrust flag cleared plus
    the thrust force when the flag is set. -/
theorem Lander.accel_thrust (H : Heading) (l : Lander) :
    l.accel H = ({ l with thrustUp := false } : Lander).accel H
      + (if l.thrustUp then l.thrustForce else 0) := by
  rw [Lander.accel_eq_sum H l, Lander.accel_eq_sum H { l with thrustUp := false }]
  simp only [directionalTerm, Bool.false_eq_true, if_false]
  ext <;> simp <;> ring

/-- C7, as stated, fails: `thrustNoFuel` has `thrustUp` set and
    `fuelTimeLeft = 0`, and `integrate` still adds the thrust force: at 60
    frames per second the lander gains the upward velocity `0.02805`, where
    the same lander with the flag cleared falls at `0.00495`. -/
theorem integrate_thrust_ignores_fuel :
    thrustNoFuel.thrustUp = true ∧ thrustNoFuel.fuelTimeLeft = 0 ∧
    thrustNoFuel.accel compass = ⟨0, 17 / 10, 0⟩ ∧
    ({ thrustNoFuel with thrustUp := false } : Lander).accel compass = ⟨0, -3 / 10, 0⟩ ∧
    (thrustNoFuel.integrate compass 60).1.velocity = ⟨0, 561 / 20000, 0⟩ ∧
    (({ thrustNoFuel with thrustUp := false } : Lander).integrate compass 60).1.velocity
      = ⟨0, -99 / 20000, 0⟩ := by
  refine ⟨rfl, rfl, ?_, ?_, ?_, ?_⟩
  · ext <;> simp [Lander.accel, thrustNoFuel]
    norm_num
  · ext <;> simp [Lander.accel, thrustNoFuel]
  · ext <;> simp [Lander.integrate, Lander.accel, Lander.dt, thrustNoFuel]
    norm_num
  · ext <;> simp [Lander.integrate, Lander.accel, Lander.dt, thrustNoFuel]
    norm_num

/-- C7, amended: `integrate` adds the thrust force exactly when `thrustUp` is
    set and does not look at the fuel; the fuel gate is in `update`.  In a
    frame with the thrust key held, the lander that `update` hands to
    `integrate` has `thrustUp` set when `fuelTimeLeft > 0` (and the frame rate
    is not `0`), and cleared when no fuel is left, so that no thrust term is
    added then. -/
theorem thrust_gate (H : Heading) (inp : TickInput) (s : App) (hs : s.keymap.space = true) :
    (∀ l : Lander, l.accel H = ({ l with thrustUp := false } : Lander).accel H
        + (if l.thrustUp then l.thrustForce else 0)) ∧
    (0 < s.obj.fuelTimeLeft → inp.framerate ≠ 0 →
      ∃ q, s.preIntegrate inp = some q ∧ q.obj.thrustUp = true) ∧
    (¬ 0 < s.obj.fuelTimeLeft →
      ∃ q, s.preIntegrate inp = some q ∧ q.obj.thrustUp = false ∧
        q.obj.accel H = ({ q.obj with thrustUp := false } : Lander).accel H) := by
  obtain ⟨k1, -, k3⟩ := App.updateThrustKey_held inp.framerate s hs
  refine ⟨Lander.accel_thrust H, ?_, ?_⟩
  · intro hf hfr
    obtain ⟨p, hp, hpv⟩ := k1 hf hfr
    obtain ⟨q, hq, hqv⟩ := App.preIntegrate_fuelView inp s p hp
    refine ⟨q, hq, ?_⟩
    rw [hpv] at hqv
    exact congrArg Prod.fst hqv
  · intro hf
    obtain ⟨p, hp, hpv⟩ := k3 hf
    obtain ⟨q, hq, hqv⟩ := App.preIntegrate_fuelView inp s p hp
    rw [hpv] at hqv
    have ht : q.obj.thrustUp = false := congrArg Prod.fst hqv
    refine ⟨q, hq, ht, ?_⟩
    rw [Lander.accel_thrust H q.obj, ht]
    ext <;> simp

/-- Witness of the amended C7: with the key held and an empty tank the lander
    handed to `integrate` has the thrust flag cleared. -/
theorem thrust_gate_witness :
    ({ thrusting with obj := thrustNoFuel } : App).keymap.space = true ∧
    ¬ 0 < ({ thrusting with obj := thrustNoFuel } : App).obj.fuelTimeLeft ∧
    ∃ q, ({ thrusting with obj := thrustNoFuel } : App).preIntegrate ⟨60, 0, 0, 0, none, false⟩
        = some q ∧ q.obj.thrustUp = false ∧
      q.obj.accel compass = ({ q.obj with thrustUp := false } : Lander).accel compass :=
  ⟨rfl, by simp [thrustNoFuel],
    (thrust_gate compass ⟨60, 0, 0, 0, none, false⟩ { thrusting with obj := thrustNoFuel }
      rfl).2.2 (by simp [thrustNoFuel])⟩

/-- C8 fails at the frame rate `0`: with the thrust key held and fuel left,
    `update` charges the fuel with the unguarded `1 / ofGetFrameRate()`, which
    has no finite value, while `integrate` uses `dt = 1` in that frame. -/
theorem update_fuel_charge_at_zero_framerate :
    thrusting.bStartGame = true ∧ thrusting.keymap.space = true ∧
    0 < thrusting.obj.fuelTimeLeft ∧
    thrusting.update compass ⟨0, 0, 0, 0, none, false⟩ = none ∧
    Lander.dt 0 = 1 :=
  ⟨rfl, rfl, by simp [thrusting],
    (App.update_thrust_held compass ⟨0, 0, 0, 0, none, false⟩ thrusting rfl rfl).2.1
      (by simp [thrusting]) rfl,
    by simp [Lander.dt]⟩

/-- C9 fails when the fuel left is smaller than the time step: from
    `fuelTimeLeft = 0.01` at 60 frames per second, with the thrust key held,
    the frame ends with `fuelTimeLeft = -1/150`, a negative value. -/
theorem update_fuel_below_zero :
    lowFuel.bStartGame = true ∧ lowFuel.keymap.space = true ∧
    0 < lowFuel.obj.fuelTimeLeft ∧
    ∃ s', lowFuel.update compass ⟨60, 0, 0, 0, none, false⟩ = some s' ∧
      s'.obj.fuelTimeLeft = -1 / 150 ∧ s'.obj.fuelTimeLeft < 0 := by
  have hpos : 0 < lowFuel.obj.fuelTimeLeft := by simp [lowFuel]
  obtain ⟨s', hs', hv⟩ :=
    (App.update_thrust_held compass ⟨60, 0, 0, 0, none, false⟩ lowFuel rfl rfl).1 hpos
      (by norm_num)
  have hfuel : s'.obj.fuelTimeLeft = -1 / 150 := by
    have := congrArg (fun v => v.2.1) hv
    simp only [App.fuelView] at this
    rw [this]
    simp only [lowFuel]
    norm_num
  exact ⟨rfl, rfl, hpos, s', hs', hfuel, by rw [hfuel]; norm_num⟩

/-- C10: the four directional intents are mutually exclusive with the priority
    forward, backward, left, right.  Compared with the same lander with the
    four move flags cleared, `integrate` adds to the acceleration exactly
    `3 * header` when `moveForward` is set, `-3 * header` when only
    `moveBackward` (and lower) are set, `3 * leftRightHeader` when `moveLeft`
    is the highest set flag, `-3 * leftRightHeader` when only `moveRight` is
    set, and nothing when none is set. -/
theorem directional_priority (H : Heading) (fr : ℚ) (l : Lander) :
    (l.moveForward = true →
      (l.integrate H fr).1.velocity = l.damping * (l.velocity +
        (l.clearMoves.accel H + (3 : ℚ) * H.header l.rotationAngle) * Lander.dt fr)) ∧
    (l.moveForward = false → l.moveBackward = true →
      (l.integrate H fr).1.velocity = l.damping * (l.velocity +
        (l.clearMoves.accel H + (-3 : ℚ) * H.header l.rotationAngle) * Lander.dt fr)) ∧
    (l.moveForward = false → l.moveBackward = false → l.moveLeft = true →
      (l.integrate H fr).1.velocity = l.damping * (l.velocity +
        (l.clearMoves.accel H + (3 : ℚ) * H.leftRightHeader l.rotationAngle) * Lander.dt fr)) ∧
    (l.moveForward = false → l.moveBackward = false → l.moveLeft = false →
        l.moveRight = true →
      (l.integrate H fr).1.velocity = l.damping * (l.velocity +
        (l.clearMoves.accel H + (-3 : ℚ) * H.leftRightHeader l.rotationAngle)
          * Lander.dt fr)) ∧
    (l.moveForward = false → l.moveBackward = false → l.moveLeft = false →
        l.moveRight = false →
      (l.integrate H fr).1.velocity = l.damping * (l.velocity +
        l.clearMoves.accel H * Lander.dt fr)) := by
  rw [Lander.integrate_velocity, Lander.accel_clearMoves]
  unfold directionalTerm
  refine ⟨?_, ?_, ?_, ?_, ?_⟩
  · intro h1; rw [if_pos h1]
  · intro h1 h2; simp only [h1, h2, Bool.false_eq_true, if_false, if_true]
  · intro h1 h2 h3; simp only [h1, h2, h3, Bool.false_eq_true, if_false, if_true]
  · intro h1 h2 h3 h4; simp only [h1, h2, h3, h4, Bool.false_eq_true, if_false, if_true]
  · intro h1 h2 h3 h4
    simp only [h1, h2, h3, h4, Bool.false_eq_true, if_false]
    ext <;> simp

/-- Witness of C10 at `allMoves`: with the four flags set at once only the
    forward term is added. -/
theorem directional_priority_witness :
    allMoves.moveForward = true ∧
    (allMoves.integrate compass 60).1.velocity = allMoves.damping * (allMoves.velocity +
      (allMoves.clearMoves.accel compass + (3 : ℚ) * compass.header allMoves.rotationAngle)
        * Lander.dt 60) :=
  ⟨rfl, (directional_priority compass 60 allMoves).1 rfl⟩

/-! ## The integrator: angular step, return value and time step -/

/-- The angular velocity written by `integrate`. -/
theorem Lander.integrate_angularVelocity (H : Heading) (fr : ℚ) (l : Lander) :
    (l.integrate H fr).1.angularVelocity
      = (l.angularVelocity + l.angularAccel * Lander.dt fr) * l.damping := rfl

/-- The angular acceleration of `integrate` by cases on the two rotation
    flags. -/
theorem Lander.angularAccel_cases (l : Lander) :
    (l.rotateLeft = true → l.rotateRight = true → l.angularAccel = l.angularAcceleration) ∧
    (l.rotateLeft = true → l.rotateRight = false →
      l.angularAccel = l.angularAcceleration + l.angularForces) ∧
    (l.rotateLeft = false → l.rotateRight = true →
      l.angularAccel = l.angularAcceleration - l.angularForces) ∧
    (l.rotateLeft = false → l.rotateRight = false → l.angularAccel = l.angularAcceleration) := by
  unfold Lander.angularAccel
  refine ⟨?_, ?_, ?_, ?_⟩ <;> intro h1 h2 <;> simp [h1, h2]

/-- C11, as stated, fails: with both rotation flags set and the configured
    `angularForces = 12` the angular acceleration used by `integrate` is the
    stored value `0`, not the `12` used when only `rotateLeft` is set; at 60
    frames per second the angular velocity stays `0` instead of becoming
    `0.198`. -/
theorem rotate_both_cancels :
    bothRotate.rotateLeft = true ∧ bothRotate.rotateRight = true ∧
    bothRotate.angularAccel = 0 ∧
    ({ bothRotate with rotateRight := false } : Lander).angularAccel = 12 ∧
    (bothRotate.integrate compass 60).1.angularVelocity = 0 ∧
    (({ bothRotate with rotateRight := false } : Lander).integrate compass 60).1.angularVelocity
      = 99 / 500 := by
  refine ⟨rfl, rfl, ?_, ?_, ?_, ?_⟩
  · simp [Lander.angularAccel, bothRotate]
  · simp [Lander.angularAccel, bothRotate]
  · simp [Lander.integrate, Lander.angularAccel, bothRotate]
  · simp [Lander.integrate, Lander.angularAccel, Lander.dt, bothRotate]
    norm_num

/-- C11, amended: the two rotation intents are tested by independent `if`s.
    With both flags set the two terms cancel and `integrate` uses the stored
    angular acceleration; with only `rotateLeft` it uses the stored value plus
    `angularForces`, with only `rotateRight` the stored value minus
    `angularForces`, and with neither the stored value. -/
theorem rotation_intents (H : Heading) (fr : ℚ) (l : Lander) :
    (l.rotateLeft = true → l.rotateRight = true →
      (l.integrate H fr).1.angularVelocity
        = (l.angularVelocity + l.angularAcceleration * Lander.dt fr) * l.damping) ∧
    (l.rotateLeft = true → l.rotateRight = false →
      (l.integrate H fr).1.angularVelocity
        = (l.angularVelocity + (l.angularAcceleration + l.angularForces) * Lander.dt fr)
            * l.damping) ∧
    (l.rotateLeft = false → l.rotateRight = true →
      (l.integrate H fr).1.angularVelocity
        = (l.angularVelocity + (l.angularAcceleration - l.angularForces) * Lander.dt fr)
            * l.damping) ∧
    (l.rotateLeft = false → l.rotateRight = false →
      (l.integrate H fr).1.angularVelocity
        = (l.angularVelocity + l.angularAcceleration * Lander.dt fr) * l.damping) := by
  obtain ⟨c1, c2, c3, c4⟩ := Lander.angularAccel_cases l
  rw [Lander.integrate_angularVelocity]
  refine ⟨?_, ?_, ?_, ?_⟩ <;> intro h1 h2
  · rw [c1 h1 h2]
  · rw [c2 h1 h2]
  · rw [c3 h1 h2]
  · rw [c4 h1 h2]

/-- Witness of the amended C11 at `bothRotate`. -/
theorem rotation_intents_witness :
    bothRotate.rotateLeft = true ∧ bothRotate.rotateRight = true ∧
    (bothRotate.integrate compass 60).1.angularVelocity
      = (bothRotate.angularVelocity + bothRotate.angularAcceleration * Lander.dt 60)
          * bothRotate.damping :=
  ⟨rfl, rfl, (rotation_intents compass 60 bothRotate).1 rfl rfl⟩

/-- C12, as stated, fails: `spinUp` has angular velocity `0`, so the call does
    not advance the rotation angle, yet at 60 frames per second it returns
    `0.0033`. -/
theorem integrate_return_differs_from_advance :
    (spinUp.integrate compass 60).1.rotationAngle - spinUp.rotationAngle = 0 ∧
    (spinUp.integrate compass 60).2 = 33 / 10000 := by
  constructor
  · simp [Lander.integrate, spinUp]
  · simp [Lander.integrate, Lander.angularAccel, Lander.dt, spinUp]
    norm_num

/-- C12, amended: `integrate` returns the angular velocity it has just
    written (after the acceleration and damping of this call) times `dt`,
    while the rotation angle was advanced in the same call by the angular
    velocity of before the call times `dt`; the returned value is the amount
    by which the next call at the same frame rate advances the rotation. -/
theorem integrate_return_value (H : Heading) (fr : ℚ) (l : Lander) :
    (l.integrate H fr).2 = (l.integrate H fr).1.angularVelocity * Lander.dt fr ∧
    (l.integrate H fr).1.rotationAngle - l.rotationAngle = l.angularVelocity * Lander.dt fr ∧
    ((l.integrate H fr).1.integrate H fr).1.rotationAngle - (l.integrate H fr).1.rotationAngle
      = (l.integrate H fr).2 := by
  refine ⟨rfl, ?_, ?_⟩
  · simp [Lander.integrate]
  · simp [Lander.integrate]

/-- C13: when the frame rate is exactly `0` the step uses `dt = 1` and the
    division by the frame rate is not reached (with the division fallible the
    time step is still always defined); for every non-zero frame rate the
    step uses `dt = 1 / framerate`.  This `dt` is the one applied to the
    position. -/
theorem dt_fallback (H : Heading) (fr : ℚ) (l : Lander) :
    Lander.dtChecked fr = some (Lander.dt fr) ∧
    Lander.dtChecked 0 = some 1 ∧
    Lander.dt 0 = 1 ∧
    (fr ≠ 0 → Lander.dt fr = 1 / fr) ∧
    (l.integrate H 0).1.position = l.position + l.velocity * (1 : ℚ) ∧
    (fr ≠ 0 → (l.integrate H fr).1.position = l.position + l.velocity * (1 / fr)) := by
  refine ⟨?_, ?_, ?_, ?_, ?_, ?_⟩
  · unfold Lander.dtChecked Lander.dt fdiv
    by_cases h : fr = 0 <;> simp [h]
  · simp [Lander.dtChecked]
  · simp [Lander.dt]
  · intro h; simp [Lander.dt, h]
  · simp [Lander.integrate, Lander.dt]
  · intro h; simp [Lander.integrate, Lander.dt, h]

/-- Witness of C13 at 60 frames per second. -/
theorem dt_fallback_witness :
    (60 : ℚ) ≠ 0 ∧ Lander.dt 60 = 1 / 60 ∧
    (climbing.integrate compass 60).1.position
      = climbing.position + climbing.velocity * (1 / 60 : ℚ) :=
  ⟨by norm_num, (dt_fallback compass 60 climbing).2.2.2.1 (by norm_num),
    (dt_fallback compass 60 climbing).2.2.2.2.2 (by norm_num)⟩

/-- C14, as stated, fails: a negative frame rate is not replaced.  At the
    frame rate `-60` the step uses `dt = -1/60`, and a lander that climbs at
    one unit per time unit from height `30` is moved down to `30 - 1/60`. -/
theorem dt_negative_framerate :
    Lander.dt (-60) = -1 / 60 ∧ Lander.dt (-60) < 0 ∧
    (climbing.integrate compass (-60)).1.position = ⟨37, 30 - 1 / 60, 57⟩ := by
  have h : Lander.dt (-60) = -1 / 60 := by
    simp [Lander.dt]; norm_num
  refine ⟨h, by rw [h]; norm_num, ?_⟩
  ext <;> simp [Lander.integrate, Lander.dt, climbing]
  norm_num

/-- C14, amended: a frame rate of exactly zero is replaced by the default
    `dt = 1`; for a positive frame rate `dt = 1 / framerate`, so for every
    frame rate that is zero or positive the `dt` applied to the position is
    positive.  A negative frame rate is not replaced: `dt = 1 / framerate`,
    which is negative. -/
theorem dt_sign (H : Heading) (fr : ℚ) (l : Lander) :
    (l.integrate H fr).1.position = l.position + l.velocity * Lander.dt fr ∧
    Lander.dt 0 = 1 ∧
    (0 ≤ fr → 0 < Lander.dt fr) ∧
    (fr < 0 → Lander.dt fr = 1 / fr ∧ Lander.dt fr < 0) := by
  refine ⟨rfl, by simp [Lander.dt], ?_, ?_⟩
  · intro h
    unfold Lander.dt
    by_cases h0 : fr = 0
    · simp [h0]
    · rw [if_neg h0]
      exact one_div_pos.2 (lt_of_le_of_ne h (Ne.symm h0))
  · intro h
    have h0 : fr ≠ 0 := ne_of_lt h
    unfold Lander.dt
    rw [if_neg h0]
    exact ⟨rfl, one_div_neg.2 h⟩

/-- Witness of the amended C14 at 60 frames per second. -/
theorem dt_sign_witness :
    (0 : ℚ) ≤ 60 ∧ 0 < Lander.dt 60 :=
  ⟨by norm_num, (dt_sign compass 60 climbing).2.2.1 (by norm_num)⟩

/-! ## Rest -/

/-- A lander without velocity, stored acceleration, turbulence, angular
    velocity, stored angular acceleration or intent is left as it is by
    `integrate`. -/
theorem Lander.integrate_rest (H : Heading) (fr : ℚ) (l : Lander)
    (hv : l.velocity = 0) (ha : l.acceleration = 0) (ht : l.turbForce = 0)
    (hw : l.angularVelocity = 0) (hq : l.angularAcceleration = 0)
    (h1 : l.thrustUp = false) (h2 : l.moveDown = false) (h3 : l.moveForward = false)
    (h4 : l.moveBackward = false) (h5 : l.moveLeft = false) (h6 : l.moveRight = false)
    (h7 : l.rotateLeft = false) (h8 : l.rotateRight = false) :
    (l.integrate H fr).1 = l := by
  have hacc : l.accel H = 0 := by
    rw [Lander.accel_eq_sum]
    simp only [directionalTerm, h1, h2, h3, h4, h5, h6, ha, ht, Bool.false_eq_true, if_false]
    ext <;> simp
  have hang : l.angularAccel = 0 := by
    simp [Lander.angularAccel, h7, h8, hq]
  have hpos : l.position + l.velocity * Lander.dt fr = l.position := by
    rw [hv]; ext <;> simp
  have hvel : (l.velocity + l.accel H * Lander.dt fr) * l.damping = l.velocity := by
    rw [hacc, hv]; ext <;> simp
  have hturb : (⟨0, 0, 0⟩ : Vec3) = l.turbForce := by rw [ht]; rfl
  unfold Lander.integrate
  simp only [hpos, hvel, hang, hw, zero_mul, add_zero, ← hturb]
  cases l
  simp_all

/-- C15, as stated, fails: `gust` has zero velocity, all intent flags false,
    zero stored acceleration and damping `1`, but its turbulence accumulator
    holds `(1, 0, 0)`; the first call turns it into velocity and the second
    call, at 60 frames per second, moves the lander from `x = 37` to
    `x = 37 + 1/3600`. -/
theorem rest_moved_by_turbulence :
    gust.velocity = ⟨0, 0, 0⟩ ∧ gust.acceleration = ⟨0, 0, 0⟩ ∧ gust.damping = 1 ∧
    gust.angularVelocity = 0 ∧ gust.position.x = 37 ∧
    (Lander.integrateRun compass [60, 60] gust).position.x = 37 + 1 / 3600 := by
  refine ⟨rfl, rfl, rfl, rfl, rfl, ?_⟩
  simp [Lander.integrateRun, Lander.integrate, Lander.accel, Lander.dt, gust]
  norm_num

/-- C15, amended: for every number of calls of `integrate`, at any frame
    rates, a lander with zero linear and angular velocity, zero stored linear
    and angular acceleration, an empty turbulence accumulator and all intent
    flags false keeps its position and its rotation (and stays in that state),
    for damping `1` as for any other damping. -/
theorem rest_is_fixed (H : Heading) (frs : List ℚ) (l : Lander)
    (hv : l.velocity = 0) (ha : l.acceleration = 0) (ht : l.turbForce = 0)
    (hw : l.angularVelocity = 0) (hq : l.angularAcceleration = 0)
    (h1 : l.thrustUp = false) (h2 : l.moveDown = false) (h3 : l.moveForward = false)
    (h4 : l.moveBackward = false) (h5 : l.moveLeft = false) (h6 : l.moveRight = false)
    (h7 : l.rotateLeft = false) (h8 : l.rotateRight = false) :
    (Lander.integrateRun H frs l).position = l.position ∧
    (Lander.integrateRun H frs l).rotationAngle = l.rotationAngle := by
  have hfix : Lander.integrateRun H frs l = l := by
    induction frs with
    | nil => rfl
    | cons fr frs ih =>
      simp only [Lander.integrateRun]
      rw [Lander.integrate_rest H fr l hv ha ht hw hq h1 h2 h3 h4 h5 h6 h7 h8]
      exact ih
  rw [hfix]
  exact ⟨rfl, rfl⟩

/-- Witness of the amended C15: three calls at different frame rates on
    `resting`. -/
theorem rest_is_fixed_witness :
    resting.velocity = 0 ∧ resting.acceleration = 0 ∧ resting.turbForce = 0 ∧
    resting.angularVelocity = 0 ∧ resting.angularAcceleration = 0 ∧
    (Lander.integrateRun compass [60, 30, 0] resting).position = resting.position ∧
    (Lander.integrateRun compass [60, 30, 0] resting).rotationAngle = resting.rotationAngle :=
  ⟨rfl, rfl, rfl, rfl, rfl,
    rest_is_fixed compass [60, 30, 0] resting rfl rfl rfl rfl rfl rfl rfl rfl rfl rfl rfl rfl rfl⟩

/-! ## The altitude sensor -/

/-- C16, as stated, fails: after a frame whose ray hit the terrain five units
    below the lander, a frame whose ray reports no hit leaves `altitude = 5`;
    it does not write `-1`. -/
theorem altitude_kept_without_hit :
    overGround.altitude = 5 ∧
    (App.altitudeStep none overGround).bAltitude = false ∧
    (App.altitudeStep none overGround).altitude = 5 ∧
    (App.altitudeStep none overGround).altitude ≠ -1 := by
  have h : overGround.altitude = 5 := by
    simp [overGround, App.altitudeStep]
    norm_num
  have h2 : (App.altitudeStep none overGround).altitude = 5 := h
  refine ⟨h, rfl, h2, ?_⟩
  rw [h2]
  norm_num

/-- C16, amended: after the altitude step, if the ray reports a hit then
    `altitude` is the height of the lander minus the height of the hit point
    (and `bAltitude` is true); if it reports no hit then `bAltitude` is false
    and `altitude` keeps the value it had before the step, which is `-1` only
    as long as no ray has hit.  The step changes nothing about the lander. -/
theorem altitude_sensor (s : App) (p : Vec3) :
    (App.altitudeStep (some p) s).altitude = s.obj.position.y - p.y ∧
    (App.altitudeStep (some p) s).bAltitude = true ∧
    (App.altitudeStep none s).altitude = s.altitude ∧
    (App.altitudeStep none s).bAltitude = false ∧
    (App.altitudeStep none ({} : App)).altitude = -1 ∧
    (App.altitudeStep (some p) s).obj = s.obj ∧ (App.altitudeStep none s).obj = s.obj :=
  ⟨rfl, rfl, rfl, rfl, rfl, rfl, rfl⟩

/-! ## The sign of the bounce -/

/-- C18: right after every bounce applied by `applyCollide` the `x` velocity
    is strictly positive, whatever the velocity before the contact: it is
    exactly `0.1` when the `x` velocity before the contact is `>= 0` and
    exactly `-0.5` times it when that velocity is `< 0`. -/
theorem bounce_x_positive (s : App) (hc : s.bCollide = true) (hk : s.clipped = false) :
    0 < s.applyCollide.obj.velocity.x ∧
    (0 ≤ s.obj.velocity.x → s.applyCollide.obj.velocity.x = 1 / 10) ∧
    (s.obj.velocity.x < 0 → s.applyCollide.obj.velocity.x = (-1 / 2 : ℚ) * s.obj.velocity.x) := by
  rw [(App.applyCollide_first_fields s hc hk).1]
  unfold bounceVelocity
  by_cases h : (-1 / 2 : ℚ) * s.obj.velocity.x ≤ 0
  · rw [if_pos h]
    refine ⟨by norm_num, fun _ => rfl, fun hx => ?_⟩
    linarith
  · rw [if_neg h]
    refine ⟨by linarith, fun hx => ?_, fun _ => rfl⟩
    exact absurd (by linarith) h

/-- Witness of C18 at `firstContact`, which arrives with the `x` velocity `1`
    and leaves with `0.1`. -/
theorem bounce_x_positive_witness :
    firstContact.bCollide = true ∧ firstContact.clipped = false ∧
    (0 : ℚ) ≤ firstContact.obj.velocity.x ∧
    0 < firstContact.applyCollide.obj.velocity.x ∧
    firstContact.applyCollide.obj.velocity.x = 1 / 10 :=
  ⟨rfl, rfl, by simp [firstContact], (bounce_x_positive firstContact rfl rfl).1,
    (bounce_x_positive firstContact rfl rfl).2.1 (by simp [firstContact])⟩

/-! ## The order of collision response and integration in one frame -/

/-- The thrust key leaves position, velocity, latch and drag flag alone. -/
theorem App.updateThrustKey_motionView (fr : ℚ) (s p : App)
    (hp : s.updateThrustKey fr = some p) : p.motionView = s.motionView := by
  unfold App.updateThrustKey at hp
  by_cases hs : s.keymap.space = true
  · by_cases hf : s.obj.fuelTimeLeft > 0
    · by_cases hfr : fr = 0
      · simp [hs, hf, fdiv, hfr] at hp
      · simp only [hs, hf, fdiv, hfr, if_true, if_false] at hp
        cases hp
        rfl
    · simp only [hs, hf, if_true, if_false] at hp
      cases hp
      rfl
  · simp only [hs, if_false] at hp
    cases hp
    rfl

/-- The thrust key is read without failure at a non-zero frame rate. -/
theorem App.updateThrustKey_some (fr : ℚ) (s : App) (hfr : fr ≠ 0) :
    ∃ p, s.updateThrustKey fr = some p := by
  unfold App.updateThrustKey
  by_cases hs : s.keymap.space = true
  · by_cases hf : s.obj.fuelTimeLeft > 0
    · simp only [hs, hf, fdiv, hfr, if_true, if_false]
      exact ⟨_, rfl⟩
    · simp only [hs, hf, if_true, if_false]
      exact ⟨_, rfl⟩
  · simp only [hs, if_false]
    exact ⟨_, rfl⟩

/-- A key statement that sets a flag leaves position, velocity, latch and drag
    flag alone. -/
theorem App.whenKey_motionView (key : Bool) (set : Lander → Lander) (s : App)
    (hset : ∀ l, (set l).position = l.position ∧ (set l).velocity = l.velocity) :
    (App.whenKey key set s).motionView = s.motionView := by
  unfold App.whenKey App.motionView
  cases key
  · rfl
  · simp only [if_true, (hset s.obj).1, (hset s.obj).2]

/-- The move keys leave position, velocity, latch and drag flag alone. -/
theorem App.updateMoveKeys_motionView (s : App) :
    s.updateMoveKeys.motionView = s.motionView := by
  unfold App.updateMoveKeys
  simp only []
  iterate 7
    refine (App.whenKey_motionView _ _ _ ?_).trans ?_
    · exact fun _ => ⟨rfl, rfl⟩
  rfl

/-- Everything of `update` that precedes the box query leaves position,
    velocity, latch and drag flag alone. -/
theorem App.beforeCollide_motionView (inp : TickInput) (s : App) :
    (App.altitudeStep inp.rayHit (App.updateForces inp s.updateMoveKeys)).motionView
      = s.motionView := by
  have h1 : (App.altitudeStep inp.rayHit (App.updateForces inp s.updateMoveKeys)).motionView
      = (App.updateForces inp s.updateMoveKeys).motionView := by
    cases inp.rayHit <;> rfl
  rw [h1]
  exact (App.updateMoveKeys_motionView s)

/-- The collision response leaves the position and the drag flag alone. -/
theorem App.applyCollide_position (s : App) :
    s.applyCollide.obj.position = s.obj.position ∧ s.applyCollide.bInDrag = s.bInDrag ∧
    s.applyCollide.bCollide = s.bCollide := by
  cases hc : s.bCollide
  · rw [App.applyCollide_clear s hc]
    exact ⟨rfl, rfl, hc⟩
  · cases hk : s.clipped
    · rw [App.applyCollide_first s hc hk]
      have step : ∀ (u : App) (i : Fin 3),
          (u.checkLandingStep i).obj.position = u.obj.position ∧
          (u.checkLandingStep i).bInDrag = u.bInDrag ∧
          (u.checkLandingStep i).bCollide = u.bCollide := by
        intro u i
        unfold App.checkLandingStep
        split
        · split <;> exact ⟨rfl, rfl, rfl⟩
        · exact ⟨rfl, rfl, rfl⟩
      have land : ∀ u : App, u.checkLanding.obj.position = u.obj.position ∧
          u.checkLanding.bInDrag = u.bInDrag ∧ u.checkLanding.bCollide = u.bCollide := by
        intro u
        simp only [App.checkLanding, List.foldl, step, and_self]
      show (App.checkLanding _).obj.position = _ ∧ (App.checkLanding _).bInDrag = _ ∧
        (App.checkLanding _).bCollide = _
      rw [(land _).1, (land _).2.1, (land _).2.2]
      unfold App.antiClip
      split
      · unfold App.bounce App.crashCheck
        split <;> exact ⟨rfl, rfl, hc⟩
      · unfold App.bounce App.crashCheck
        split <;> exact ⟨rfl, rfl, hc⟩
    · rw [App.applyCollide_latched s hc hk]
      exact ⟨rfl, rfl, hc⟩

/-- The fuel charge and the end-of-game test leave the lander motion and the
    overlap flag alone. -/
theorem App.afterIntegrate_frame (s : App) :
    s.fuelStep.endGameStep.obj.position = s.obj.position ∧
    s.fuelStep.endGameStep.obj.velocity = s.obj.velocity ∧
    s.fuelStep.endGameStep.bCollide = s.bCollide := by
  have h1 : ∀ u : App, u.endGameStep.obj = u.obj ∧ u.endGameStep.bCollide = u.bCollide := by
    intro u; unfold App.endGameStep; split <;> exact ⟨rfl, rfl⟩
  have h2 : s.fuelStep.obj.position = s.obj.position ∧
      s.fuelStep.obj.velocity = s.obj.velocity ∧ s.fuelStep.bCollide = s.bCollide := by
    unfold App.fuelStep; split <;> exact ⟨rfl, rfl, rfl⟩
  rw [(h1 _).1, (h1 _).2]
  exact h2

/-- While the lander is not dragged, `update` replaces it by the result of
    `integrate` and leaves the overlap flag alone. -/
theorem App.integrateStep_free (H : Heading) (fr : ℚ) (u : App) (h : u.bInDrag = false) :
    (App.integrateStep H fr u).obj = (u.obj.integrate H fr).1 ∧
    (App.integrateStep H fr u).bCollide = u.bCollide := by
  unfold App.integrateStep
  simp [h]

/-- One frame of a running game, lander not dragged, at a non-zero frame
    rate: the collision response works on the position and velocity of before
    the frame, and `integrate` runs on its result. -/
theorem App.update_order (H : Heading) (inp : TickInput) (s : App)
    (hg : s.bStartGame = true) (hd : s.bInDrag = false) (hfr : inp.framerate ≠ 0) :
    ∃ q s', s.preIntegrate inp = some q ∧ s.update H inp = some s' ∧
      q.obj.position = s.obj.position ∧ q.bCollide = inp.boxHit ∧
      (inp.boxHit = true → s.clipped = false →
        q.obj.velocity = bounceVelocity s.obj.velocity) ∧
      s'.obj.position = s.obj.position + q.obj.velocity * Lander.dt inp.framerate ∧
      s'.obj.velocity
        = q.obj.damping * (q.obj.velocity + q.obj.accel H * Lander.dt inp.framerate) ∧
      s'.bCollide = inp.boxHit := by
  obtain ⟨p, hp⟩ := App.updateThrustKey_some inp.framerate s hfr
  have hpm := App.updateThrustKey_motionView inp.framerate s p hp
  set c : App := App.checkCollide inp.boxHit
    (App.altitudeStep inp.rayHit (App.updateForces inp p.updateMoveKeys)) with hc
  have hcm : c.motionView = s.motionView := by
    have : c.motionView
        = (App.altitudeStep inp.rayHit (App.updateForces inp p.updateMoveKeys)).motionView := rfl
    rw [this, App.beforeCollide_motionView, hpm]
  have hcpos : c.obj.position = s.obj.position := congrArg Prod.fst hcm
  have hcvel : c.obj.velocity = s.obj.velocity := congrArg (fun v => v.2.1) hcm
  have hcclip : c.clipped = s.clipped := congrArg (fun v => v.2.2.1) hcm
  have hcdrag : c.bInDrag = s.bInDrag := congrArg (fun v => v.2.2.2) hcm
  have hcb : c.bCollide = inp.boxHit := rfl
  obtain ⟨a1, a2, a3⟩ := App.applyCollide_position c
  have hq : s.preIntegrate inp = some c.applyCollide := by
    unfold App.preIntegrate
    rw [hp]
    rfl
  obtain ⟨hint, hintb⟩ := App.integrateStep_free H inp.framerate c.applyCollide
    (a2.trans (hcdrag.trans hd))
  obtain ⟨f1, f2, f3⟩ :=
    App.afterIntegrate_frame (App.integrateStep H inp.framerate c.applyCollide)
  refine ⟨c.applyCollide, (App.integrateStep H inp.framerate c.applyCollide).fuelStep.endGameStep,
    hq, ?_, a1.trans hcpos, a3.trans hcb, ?_, ?_, ?_, ?_⟩
  · unfold App.update
    rw [hg, hq]
    rfl
  · intro hb hk
    have hb2 : c.bCollide = true := hcb.trans hb
    have hk2 : c.clipped = false := hcclip.trans hk
    rw [(App.applyCollide_first_fields c hb2 hk2).1, hcvel]
  · rw [f1, hint, ← hcpos, ← a1]
    rfl
  · rw [f2, hint]
    exact Lander.integrate_velocity H inp.framerate c.applyCollide.obj
  · rw [f3, hintb]
    exact a3.trans hcb

/-- The same frame in the order of the specification: `integrate` moves the
    lander by the velocity of before the frame. -/
theorem App.updateSpecOrder_position (H : Heading) (inp : TickInput) (s : App)
    (hg : s.bStartGame = true) (hd : s.bInDrag = false) (hfr : inp.framerate ≠ 0) :
    ∃ t, s.updateSpecOrder H inp = some t ∧
      t.obj.position = s.obj.position + s.obj.velocity * Lander.dt inp.framerate := by
  obtain ⟨p, hp⟩ := App.updateThrustKey_some inp.framerate s hfr
  have hpm := App.updateThrustKey_motionView inp.framerate s p hp
  set m : App := App.updateForces inp p.updateMoveKeys with hm
  have hmm : m.motionView = s.motionView := by
    have : m.motionView = p.updateMoveKeys.motionView := rfl
    rw [this, App.updateMoveKeys_motionView, hpm]
  have hmpos : m.obj.position = s.obj.position := congrArg Prod.fst hmm
  have hmvel : m.obj.velocity = s.obj.velocity := congrArg (fun v => v.2.1) hmm
  have hmdrag : m.bInDrag = s.bInDrag := congrArg (fun v => v.2.2.2) hmm
  obtain ⟨hint, -⟩ := App.integrateStep_free H inp.framerate m (hmdrag.trans hd)
  set c : App := App.checkCollide inp.boxHit
    (App.altitudeStep inp.rayHit (App.integrateStep H inp.framerate m)) with hc
  have hcpos : c.obj.position = (App.integrateStep H inp.framerate m).obj.position := by
    rw [hc]
    cases inp.rayHit <;> rfl
  obtain ⟨a1, -, -⟩ := App.applyCollide_position c
  obtain ⟨f1, -, -⟩ := App.afterIntegrate_frame c.applyCollide
  refine ⟨c.applyCollide.fuelStep.endGameStep, ?_, ?_⟩
  · unfold App.updateSpecOrder
    rw [hg]
    simp only [if_true, hp, Option.bind_eq_bind, Option.some_bind, Option.pure_def]
  · rw [f1, a1, hcpos, hint, ← hmpos, ← hmvel]
    rfl

/-- C17, as stated, fails.  `fallingContact` falls at one unit per time unit
    and its box query reports an overlap.  In `update` the bounce comes first
    and `integrate` then moves the lander by the bounced velocity
    `(0.1, 0.5, 0)`, up to `30 + 1/120`; in the order of the claim `integrate`
    would first move it by the old velocity, down to `30 - 1/60`. -/
theorem update_collides_before_integrating :
    ∃ s' t, fallingContact.update compass ⟨60, 0, 0, 0, none, true⟩ = some s' ∧
      fallingContact.updateSpecOrder compass ⟨60, 0, 0, 0, none, true⟩ = some t ∧
      s'.obj.position = ⟨37 + 1 / 600, 30 + 1 / 120, 57⟩ ∧
      t.obj.position = ⟨37, 30 - 1 / 60, 57⟩ := by
  obtain ⟨q, s', -, hs', -, -, hb, hpos, -, -⟩ :=
    App.update_order compass ⟨60, 0, 0, 0, none, true⟩ fallingContact rfl rfl
      (by norm_num)
  obtain ⟨t, ht, htpos⟩ :=
    App.updateSpecOrder_position compass ⟨60, 0, 0, 0, none, true⟩ fallingContact rfl rfl
      (by norm_num)
  refine ⟨s', t, hs', ht, ?_, ?_⟩
  · rw [hpos, hb rfl rfl]
    ext <;> simp [bounceVelocity, Lander.dt, fallingContact]
    all_goals norm_num
  · rw [htpos]
    ext <;> simp [Lander.dt, fallingContact]
    norm_num

/-- C17, amended: within one frame of `update` the collision system runs
    first and the integrator afterwards.  `checkCollide` and `applyCollide`
    work at the position the lander has before this frame's `integrate` (the
    one reached by the `integrate` of the previous frame), the bounce rewrites
    the velocity of before the integration, and `integrate` then uses this
    rewritten velocity to move the lander in the same frame; the velocity that
    `integrate` writes is not touched by the collision system until the next
    frame. -/
theorem collision_before_integrate (H : Heading) (inp : TickInput) (s : App)
    (hg : s.bStartGame = true) (hd : s.bInDrag = false) (hfr : inp.framerate ≠ 0) :
    ∃ q s', s.preIntegrate inp = some q ∧ s.update H inp = some s' ∧
      q.obj.position = s.obj.position ∧ q.bCollide = inp.boxHit ∧
      (inp.boxHit = true → s.clipped = false →
        q.obj.velocity = bounceVelocity s.obj.velocity) ∧
      s'.obj.position = s.obj.position + q.obj.velocity * Lander.dt inp.framerate ∧
      s'.obj.velocity
        = q.obj.damping * (q.obj.velocity + q.obj.accel H * Lander.dt inp.framerate) ∧
      s'.bCollide = inp.boxHit :=
  App.update_order H inp s hg hd hfr

/-- Witness of the amended C17 at `fallingContact`, 60 frames per second, with
    an overlap reported. -/
theorem collision_before_integrate_witness :
    fallingContact.bStartGame = true ∧ fallingContact.bInDrag = false ∧ (60 : ℚ) ≠ 0 ∧
    ∃ q s', fallingContact.preIntegrate ⟨60, 0, 0, 0, none, true⟩ = some q ∧
      fallingContact.update compass ⟨60, 0, 0, 0, none, true⟩ = some s' ∧
      q.obj.position = fallingContact.obj.position ∧ q.bCollide = true ∧
      (true = true → fallingContact.clipped = false →
        q.obj.velocity = bounceVelocity fallingContact.obj.velocity) ∧
      s'.obj.position = fallingContact.obj.position + q.obj.velocity * Lander.dt 60 ∧
      s'.obj.velocity
        = q.obj.damping * (q.obj.velocity + q.obj.accel compass * Lander.dt 60) ∧
      s'.bCollide = true :=
  ⟨rfl, rfl, by norm_num,
    collision_before_integrate compass ⟨60, 0, 0, 0, none, true⟩ fallingContact rfl rfl
      (by norm_num)⟩

/-! ## The configured pads -/

/-- A pad in range puts the lander within the radius of the pad centre along
    `z`. -/
theorem App.inRange_band (s : App) (i : Fin 3) (h : s.inRange i = true) :
    (s.landingAreas i).z - s.landingAreaRadius ≤ s.obj.position.z ∧
    s.obj.position.z ≤ (s.landingAreas i).z + s.landingAreaRadius := by
  unfold App.inRange sqrtLe at h
  rw [decide_eq_true_iff, App.distSq_eq] at h
  obtain ⟨hr, hd⟩ := h
  have hx : 0 ≤ (s.obj.position.x - (s.landingAreas i).x) ^ 2 := sq_nonneg _
  constructor
  · by_contra hc
    push_neg at hc
    nlinarith
  · by_contra hc
    push_neg at hc
    nlinarith

/-- With the configured pad centres and radius at most one pad is in range. -/
theorem App.configured_inRange_unique (s : App) (ha : s.landingAreas = landingAreasSetup)
    (hr : s.landingAreaRadius = 5 / 2) (i j : Fin 3)
    (hi : s.inRange i = true) (hj : s.inRange j = true) : i = j := by
  have b0 := App.inRange_band s 0
  have b1 := App.inRange_band s 1
  have b2 := App.inRange_band s 2
  rw [ha, hr] at b0 b1 b2
  simp only [landingAreasSetup] at b0 b1 b2
  match i, j, hi, hj with
  | 0, 0, _, _ => rfl
  | 1, 1, _, _ => rfl
  | 2, 2, _, _ => rfl
  | 0, 1, hi, hj => exact absurd (b0 hi).1 (by have := (b1 hj).2; intro h; linarith)
  | 0, 2, hi, hj => exact absurd (b0 hi).2 (by have := (b2 hj).1; intro h; linarith)
  | 1, 0, hi, hj => exact absurd (b0 hj).1 (by have := (b1 hi).2; intro h; linarith)
  | 1, 2, hi, hj => exact absurd (b1 hi).2 (by have := (b2 hj).1; intro h; linarith)
  | 2, 0, hi, hj => exact absurd (b0 hj).2 (by have := (b2 hi).1; intro h; linarith)
  | 2, 1, hi, hj => exact absurd (b1 hj).2 (by have := (b2 hi).1; intro h; linarith)

/-- When at most one pad is in range, the loop body run over any list of pads
    raises the flag if the list holds a pad in range and records the score of
    that pad. -/
theorem App.checkLandingIn_unique (s : App)
    (huniq : ∀ i j : Fin 3, s.inRange i = true → s.inRange j = true → i = j)
    (order : List (Fin 3)) (u : App)
    (hp : u.obj = s.obj) (ha : u.landingAreas = s.landingAreas)
    (hr : u.landingAreaRadius = s.landingAreaRadius)
    (hh : u.landerHalfLength = s.landerHalfLength)
    (h1 : u.score1 = s.score1) (h2 : u.score2 = s.score2) (h3 : u.score3 = s.score3) :
    (App.checkLandingIn order u).bLanding = (u.bLanding || order.any fun i => s.inRange i) ∧
    (App.checkLandingIn order u).finalScore
      = (match order.find? fun i => s.inRange i with
         | some m => s.padScore m
         | none => u.finalScore) := by
  induction order generalizing u with
  | nil => simp [App.checkLandingIn]
  | cons i rest ih =>
    obtain ⟨a1, -, -, -, -, -, a7, a8, a9, a10, a11, a12⟩ := App.checkLandingStep_frame u i
    obtain ⟨e1, e2⟩ := App.checkLandingStep_eq u i
    obtain ⟨c1, c2⟩ := App.inRange_padScore_congr u s i hp ha hr hh h1 h2 h3
    have ih' := ih (u.checkLandingStep i) (a1.trans hp) (a7.trans ha) (a8.trans hr)
      (a9.trans hh) (a10.trans h1) (a11.trans h2) (a12.trans h3)
    have hcons : App.checkLandingIn (i :: rest) u
        = App.checkLandingIn rest (u.checkLandingStep i) := rfl
    rw [hcons, ih'.1, ih'.2, e1, e2, c1, c2]
    cases hin : s.inRange i
    · simp [hin]
    · simp only [List.any_cons, hin, Bool.true_or, Bool.or_true, if_true,
        List.find?_cons_of_pos, true_and]
      cases hf : rest.find? fun i => s.inRange i with
      | none => rfl
      | some m =>
        have hm : s.inRange m = true := List.find?_some hf
        rw [huniq m i hm hin]

/-- With the configured pads, running the loop body over the three pads in any
    order gives the flag and the score of `checkLanding`. -/
theorem App.configured_order_irrelevant (s : App) (ha : s.landingAreas = landingAreasSetup)
    (hr : s.landingAreaRadius = 5 / 2) (order : List (Fin 3))
    (hperm : order.Perm [0, 1, 2]) :
    (App.checkLandingIn order s).bLanding = s.checkLanding.bLanding ∧
    (App.checkLandingIn order s).finalScore = s.checkLanding.finalScore := by
  have huniq := App.configured_inRange_unique s ha hr
  obtain ⟨p1, p2⟩ := App.checkLandingIn_unique s huniq order s rfl rfl rfl rfl rfl rfl rfl
  obtain ⟨q1, q2⟩ :=
    App.checkLandingIn_unique s huniq [0, 1, 2] s rfl rfl rfl rfl rfl rfl rfl
  have hstd : App.checkLandingIn [0, 1, 2] s = s.checkLanding := rfl
  rw [hstd] at q1 q2
  rw [p1, p2, q1, q2]
  constructor
  · congr 1
    rw [Bool.eq_iff_iff, List.any_eq_true, List.any_eq_true]
    constructor
    · rintro ⟨x, hx, hfx⟩; exact ⟨x, hperm.mem_iff.1 hx, hfx⟩
    · rintro ⟨x, hx, hfx⟩; exact ⟨x, hperm.mem_iff.2 hx, hfx⟩
  · cases hf : order.find? fun i => s.inRange i with
    | none =>
      cases hg : ([0, 1, 2] : List (Fin 3)).find? fun i => s.inRange i with
      | none => rfl
      | some m =>
        have hm : s.inRange m = true := List.find?_some hg
        have hmem : m ∈ order := hperm.mem_iff.2 (List.mem_of_find?_eq_some hg)
        rw [List.find?_eq_none] at hf
        exact absurd hm (hf m hmem)
    | some m =>
      have hm : s.inRange m = true := List.find?_some hf
      cases hg : ([0, 1, 2] : List (Fin 3)).find? fun i => s.inRange i with
      | none =>
        have hmem : m ∈ ([0, 1, 2] : List (Fin 3)) :=
          hperm.mem_iff.1 (List.mem_of_find?_eq_some hf)
        rw [List.find?_eq_none] at hg
        exact absurd hm (hg m hmem)
      | some m' =>
        have hm' : s.inRange m' = true := List.find?_some hg
        show s.padScore m = s.padScore m'
        rw [huniq m m' hm hm']

/-- C19: with the configured pad centres and radius `2.5`, for every lander
    position at most one pad is within the radius; hence the flag and score
    of `checkLanding` are the same for every order in which the loop could
    visit the three pads, and whenever a pad is in range (so that the landing
    flag is set) `finalScore` is one of `100`, `50`, `200`, `300`, `150`. -/
theorem configured_pads_disjoint (s : App) (ha : s.landingAreas = landingAreasSetup)
    (hr : s.landingAreaRadius = 5 / 2)
    (h1 : s.score1 = 100) (h2 : s.score2 = 200) (h3 : s.score3 = 300) :
    (∀ i j : Fin 3,
      Real.sqrt ((s.distSq i : ℚ) : ℝ) ≤ ((s.landingAreaRadius : ℚ) : ℝ) →
      Real.sqrt ((s.distSq j : ℚ) : ℝ) ≤ ((s.landingAreaRadius : ℚ) : ℝ) → i = j) ∧
    (∀ order : List (Fin 3), order.Perm [0, 1, 2] →
      (App.checkLandingIn order s).bLanding = s.checkLanding.bLanding ∧
      (App.checkLandingIn order s).finalScore = s.checkLanding.finalScore) ∧
    ((∃ i : Fin 3, Real.sqrt ((s.distSq i : ℚ) : ℝ) ≤ ((s.landingAreaRadius : ℚ) : ℝ)) →
      s.checkLanding.bLanding = true ∧
      (s.checkLanding.finalScore = 100 ∨ s.checkLanding.finalScore = 50 ∨
        s.checkLanding.finalScore = 200 ∨ s.checkLanding.finalScore = 300 ∨
        s.checkLanding.finalScore = 150)) := by
  have huniq := App.configured_inRange_unique s ha hr
  refine ⟨?_, App.configured_order_irrelevant s ha hr, ?_⟩
  · intro i j hi hj
    exact huniq i j ((App.inRange_iff s i).2 hi) ((App.inRange_iff s j).2 hj)
  · rintro ⟨i, hi⟩
    have hin : s.inRange i = true := (App.inRange_iff s i).2 hi
    have hlast : ∀ k : Fin 3, i < k → s.inRange k = false := by
      intro k hk
      cases hkin : s.inRange k
      · rfl
      · exact absurd (huniq i k hin hkin) (ne_of_lt hk)
    refine ⟨App.checkLanding_flag s i hin, ?_⟩
    rw [App.checkLanding_last s i hin hlast]
    have s0 : s.scoreOf 0 = 100 := h1
    have s1 : s.scoreOf 1 = 200 := h2
    have s2 : s.scoreOf 2 = 300 := h3
    unfold App.padScore
    match i with
    | 0 => rw [s0]; split <;> norm_num
    | 1 => rw [s1]; split <;> norm_num
    | 2 => rw [s2]; split <;> norm_num

/-- Witness of C19 at `onPadCentre`, which sits on pad 0 of the configured
    pads: visiting the pads in the order `2, 0, 1` gives the score of
    `checkLanding`. -/
theorem configured_pads_disjoint_witness :
    onPadCentre.landingAreas = landingAreasSetup ∧ onPadCentre.landingAreaRadius = 5 / 2 ∧
    onPadCentre.score1 = 100 ∧ onPadCentre.score2 = 200 ∧ onPadCentre.score3 = 300 ∧
    ([2, 0, 1] : List (Fin 3)).Perm [0, 1, 2] ∧
    (App.checkLandingIn [2, 0, 1] onPadCentre).finalScore = onPadCentre.checkLanding.finalScore :=
  ⟨rfl, rfl, rfl, rfl, rfl, by decide,
    ((configured_pads_disjoint onPadCentre rfl rfl rfl rfl rfl).2.1 [2, 0, 1] (by decide)).2⟩

end MoonLander
